import Mathlib

/-!
# Stop strategies of `dlib/optimization/optimization_stop_strategies.h`

A shallow embedding of the three stop-strategy classes of the header and the
properties established for them.

Modelling conventions.

* A value of type `double` is the number it denotes, an element of a linearly
  ordered field `α` (`ℚ` when a value has to be computed, `ℝ` when a square
  root is needed).  Comparison and `std::abs` are exact on such values.  The
  subtraction of two `double`s rounds its result: it is the parameter `sub` of
  the embedding, and `binary64_sub` gives it for IEEE 754 binary64 in the
  default rounding mode.  Infinities and NaN are outside the model.
* The data model is LP64: `unsigned long` has 64 bits and `int` has 32.
  `unsigned long` is `Nat`: the only arithmetic on `_cur_iter` is `++`, once per
  call and starting from `0`, so the counter cannot wrap before `2^64` calls
  have been made.  The narrowing `static_cast<int>` of the accessors is
  modelled with its wrap-around, because it is reached after `2^31` calls.
* An object is a record of its data members; a member function takes the record
  and returns the new record next to its return value.  A data member without
  an initialiser is `none` until it is first assigned.
* What a verbose call writes to `std::cout` is returned as a record of the
  printed values (`none` when nothing is printed).
* The template parameter `T` of `should_continue_search` is a type parameter.
  The matrix functions `length`, `abs` and `max` that the header calls on a `T`
  live in dlib's matrix library; they are parameters of the embedding, and
  `matrix_length`, `matrix_abs`, `matrix_max` give them for column vectors
  represented as lists of their components.
-/

namespace dlib

/-- Values printed by one verbose call: the iteration number, the objective
value and, for the gradient strategies, the printed gradient measure. -/
structure cout_line (α : Type) where
  iteration : Nat
  objective : α
  gradient : Option α

/-- Value returned by a call of `should_continue_search`, the object after the
call, and what the call printed. -/
structure outcome (S α : Type) where
  result : Bool
  self : S
  cout : Option (cout_line α)

/-- Modelled from the spec: the macro `DLIB_ASSERT` is defined in dlib's
`assert.h`, which is not part of this header.  The spec treats it as "fails fast
on invalid configuration": when the asserted condition is false no object is
constructed. -/
def DLIB_ASSERT {S : Type} (cond : Prop) [Decidable cond] (obj : S) : Option S :=
  if cond then some obj else none

/-- The conversion `static_cast<int>(n)` of an `unsigned long` to a 32-bit `int`
(two's complement, value preserved modulo `2^32`). -/
def static_cast_int (n : Nat) : Int :=
  ((n : Int) + 2147483648) % 4294967296 - 2147483648

/-- Results of a sequence of calls made one after the other on the same object,
and the object after the last call. -/
def call_sequence {S I α : Type} (call : S → I → outcome S α) : S → List I → List Bool × S
  | s, [] => ([], s)
  | s, i :: rest =>
    let o := call s i
    let r := call_sequence call o.self rest
    (o.result :: r.1, r.2)

/-! ## Arithmetic of `double` -/

section binary64

variable {α : Type} [LinearOrderedField α] [FloorRing α]

/-- The integer nearest to `y`; when `y` lies half-way between two integers, the
even one. -/
def round_half_even (y : α) : Int :=
  if y - ⌊y⌋ < 1 / 2 then ⌊y⌋
  else if 1 / 2 < y - ⌊y⌋ then ⌊y⌋ + 1
  else if ⌊y⌋ % 2 = 0 then ⌊y⌋ else ⌊y⌋ + 1

/-- The binary exponent `e` with which binary64 represents a number of the size
of `x`: `2^e <= |x| < 2^(e+1)`, and `-1022` for the numbers below `2^(-1022)`,
which are subnormal. -/
def binary64_exponent (x : α) : Int :=
  max (Int.log 2 |x|) (-1022)

/-- The binary64 value nearest to `x` (IEEE 754 round to nearest, ties to even):
`x` is rounded to a multiple of `2^(e-52)`, the spacing of the 53-bit
significands with exponent `e`.  A result beyond the largest finite binary64
value, which the machine replaces by an infinity, is left as rounded. -/
def binary64_round (x : α) : α :=
  if x = 0 then 0
  else (round_half_even (x / 2 ^ (binary64_exponent x - 52)) : α) *
    2 ^ (binary64_exponent x - 52)

/-- The `operator-` of `double`: the exact difference, rounded to binary64. -/
def binary64_sub (a b : α) : α :=
  binary64_round (a - b)

end binary64

/-! ## `objective_delta_stop_strategy` -/

/-- Data members of `objective_delta_stop_strategy`. -/
structure objective_delta_stop_strategy (α : Type) where
  _verbose : Bool
  _been_used : Bool
  _min_delta : α
  _max_iter : Nat
  _cur_iter : Nat
  _prev_funct_value : α
  _current_change_in_function_value : Option α

namespace objective_delta_stop_strategy

variable {α : Type} [LinearOrderedField α]

/-- Member initialiser list of `objective_delta_stop_strategy(min_delta)`. -/
def init (min_delta : α) : objective_delta_stop_strategy α :=
  { _verbose := false, _been_used := false, _min_delta := min_delta, _max_iter := 0,
    _cur_iter := 0, _prev_funct_value := 0, _current_change_in_function_value := none }

/-- Member initialiser list of `objective_delta_stop_strategy(min_delta, max_iter)`. -/
def init_max_iter (min_delta : α) (max_iter : Nat) : objective_delta_stop_strategy α :=
  { _verbose := false, _been_used := false, _min_delta := min_delta, _max_iter := max_iter,
    _cur_iter := 0, _prev_funct_value := 0, _current_change_in_function_value := none }

/-- Constructor `objective_delta_stop_strategy(min_delta)`. -/
def create (min_delta : α) : Option (objective_delta_stop_strategy α) :=
  DLIB_ASSERT (min_delta ≥ 0) (init min_delta)

/-- Constructor `objective_delta_stop_strategy(min_delta, max_iter)`. -/
def create_max_iter (min_delta : α) (max_iter : Nat) : Option (objective_delta_stop_strategy α) :=
  DLIB_ASSERT (min_delta ≥ 0 ∧ max_iter > 0) (init_max_iter min_delta max_iter)

/-- Member function `be_verbose`. -/
def be_verbose (s : objective_delta_stop_strategy α) : objective_delta_stop_strategy α :=
  { s with _verbose := true }

/-- Member function `should_continue_search`; `sub` is the subtraction of
`double`, the first and third argument after the object are the unnamed
`const T&` parameters. -/
def should_continue_search {T : Type} (sub : α → α → α) (s : objective_delta_stop_strategy α)
    (_ : T) (funct_value : α) (_ : T) : outcome (objective_delta_stop_strategy α) α :=
  let cout : Option (cout_line α) :=
    if s._verbose then some ⟨s._cur_iter, funct_value, none⟩ else none
  let s1 := { s with _cur_iter := s._cur_iter + 1 }
  if s1._been_used then
    if s1._max_iter ≠ 0 ∧ s1._cur_iter > s1._max_iter then
      ⟨false, s1, cout⟩
    else
      let s2 := { s1 with
        _current_change_in_function_value := some (sub funct_value s1._prev_funct_value) }
      if |sub funct_value s1._prev_funct_value| < s2._min_delta then
        ⟨false, s2, cout⟩
      else
        ⟨true, { s2 with _been_used := true, _prev_funct_value := funct_value }, cout⟩
  else
    ⟨true, { s1 with _been_used := true, _prev_funct_value := funct_value }, cout⟩

/-- Member function `current_iteration`. -/
def current_iteration (s : objective_delta_stop_strategy α) : Int :=
  static_cast_int s._cur_iter

/-- Consecutive calls of `should_continue_search`, one per `(x, funct_value,
funct_derivative)` triple. -/
def calls {T : Type} (sub : α → α → α) (s : objective_delta_stop_strategy α)
    (inputs : List (T × α × T)) : List Bool × objective_delta_stop_strategy α :=
  call_sequence (fun s i => should_continue_search sub s i.1 i.2.1 i.2.2) s inputs

end objective_delta_stop_strategy

/-! ## `gradient_norm_stop_strategy` -/

/-- Data members of `gradient_norm_stop_strategy`. -/
structure gradient_norm_stop_strategy (α : Type) where
  _verbose : Bool
  _min_norm : α
  _max_iter : Nat
  _cur_iter : Nat
  _current_gradient_norm : Option α

namespace gradient_norm_stop_strategy

variable {α : Type} [LinearOrderedField α]

/-- Member initialiser list of `gradient_norm_stop_strategy(min_norm)`. -/
def init (min_norm : α) : gradient_norm_stop_strategy α :=
  { _verbose := false, _min_norm := min_norm, _max_iter := 0, _cur_iter := 0,
    _current_gradient_norm := none }

/-- Member initialiser list of `gradient_norm_stop_strategy(min_norm, max_iter)`. -/
def init_max_iter (min_norm : α) (max_iter : Nat) : gradient_norm_stop_strategy α :=
  { _verbose := false, _min_norm := min_norm, _max_iter := max_iter, _cur_iter := 0,
    _current_gradient_norm := none }

/-- Constructor `gradient_norm_stop_strategy(min_norm)`. -/
def create (min_norm : α) : Option (gradient_norm_stop_strategy α) :=
  DLIB_ASSERT (min_norm ≥ 0) (init min_norm)

/-- Constructor `gradient_norm_stop_strategy(min_norm, max_iter)`. -/
def create_max_iter (min_norm : α) (max_iter : Nat) : Option (gradient_norm_stop_strategy α) :=
  DLIB_ASSERT (min_norm ≥ 0 ∧ max_iter > 0) (init_max_iter min_norm max_iter)

/-- Member function `be_verbose`. -/
def be_verbose (s : gradient_norm_stop_strategy α) : gradient_norm_stop_strategy α :=
  { s with _verbose := true }

/-- Member function `should_continue_search`; `length` is the matrix function
the body calls on `funct_derivative`, the first argument after the object is
the unnamed `const T&` parameter. -/
def should_continue_search {T : Type} (length : T → α) (s : gradient_norm_stop_strategy α)
    (_ : T) (funct_value : α) (funct_derivative : T) : outcome (gradient_norm_stop_strategy α) α :=
  let cout : Option (cout_line α) :=
    if s._verbose then some ⟨s._cur_iter, funct_value, some (length funct_derivative)⟩ else none
  let s1 := { s with _cur_iter := s._cur_iter + 1 }
  if s1._max_iter ≠ 0 ∧ s1._cur_iter > s1._max_iter then
    ⟨false, s1, cout⟩
  else
    let s2 := { s1 with _current_gradient_norm := some (length funct_derivative) }
    if length funct_derivative < s2._min_norm then
      ⟨false, s2, cout⟩
    else
      ⟨true, s2, cout⟩

/-- Member function `current_gradient_norm`. -/
def current_gradient_norm (s : gradient_norm_stop_strategy α) : Option α :=
  s._current_gradient_norm

/-- Member function `current_iteration`. -/
def current_iteration (s : gradient_norm_stop_strategy α) : Int :=
  static_cast_int s._cur_iter

/-- Consecutive calls of `should_continue_search`, one per `(x, funct_value,
funct_derivative)` triple. -/
def calls {T : Type} (length : T → α) (s : gradient_norm_stop_strategy α)
    (inputs : List (T × α × T)) : List Bool × gradient_norm_stop_strategy α :=
  call_sequence (fun s i => should_continue_search length s i.1 i.2.1 i.2.2) s inputs

end gradient_norm_stop_strategy

/-! ## `gradient_max_abs_val_stop_strategy` -/

/-- Data members of `gradient_max_abs_val_stop_strategy`. -/
structure gradient_max_abs_val_stop_strategy (α : Type) where
  _verbose : Bool
  _min_gradient_abs_val : α
  _max_iter : Nat
  _cur_iter : Nat
  _current_gradient_max_abs_val : Option α

namespace gradient_max_abs_val_stop_strategy

variable {α : Type} [LinearOrderedField α]

/-- Member initialiser list of
`gradient_max_abs_val_stop_strategy(min_gradient_abs_val)`. -/
def init (min_gradient_abs_val : α) : gradient_max_abs_val_stop_strategy α :=
  { _verbose := false, _min_gradient_abs_val := min_gradient_abs_val, _max_iter := 0,
    _cur_iter := 0, _current_gradient_max_abs_val := none }

/-- Member initialiser list of
`gradient_max_abs_val_stop_strategy(min_gradient_abs_val, max_iter)`. -/
def init_max_iter (min_gradient_abs_val : α) (max_iter : Nat) :
    gradient_max_abs_val_stop_strategy α :=
  { _verbose := false, _min_gradient_abs_val := min_gradient_abs_val, _max_iter := max_iter,
    _cur_iter := 0, _current_gradient_max_abs_val := none }

/-- Constructor `gradient_max_abs_val_stop_strategy(min_gradient_abs_val)`.
The asserted expression is `min_norm >= 0`, as the source has it.  The
constructor has no parameter and the class no member called `min_norm`, so the
name denotes whatever it is bound to where the header is compiled: it is the
first argument here. -/
def create (min_norm : α) (min_gradient_abs_val : α) :
    Option (gradient_max_abs_val_stop_strategy α) :=
  DLIB_ASSERT (min_norm ≥ 0) (init min_gradient_abs_val)

/-- Constructor `gradient_max_abs_val_stop_strategy(min_gradient_abs_val,
max_iter)`.  The asserted expression is `min_norm >= 0 && max_iter > 0`, as the
source has it, with `min_norm` as in `create`. -/
def create_max_iter (min_norm : α) (min_gradient_abs_val : α) (max_iter : Nat) :
    Option (gradient_max_abs_val_stop_strategy α) :=
  DLIB_ASSERT (min_norm ≥ 0 ∧ max_iter > 0) (init_max_iter min_gradient_abs_val max_iter)

/-- Member function `be_verbose`. -/
def be_verbose (s : gradient_max_abs_val_stop_strategy α) :
    gradient_max_abs_val_stop_strategy α :=
  { s with _verbose := true }

/-- Member function `should_continue_search`; `abs` and `max` are the matrix
functions the body calls on `funct_derivative`, the first argument after the
object is the unnamed `const T&` parameter. -/
def should_continue_search {T : Type} (abs : T → T) (max : T → α)
    (s : gradient_max_abs_val_stop_strategy α)
    (_ : T) (funct_value : α) (funct_derivative : T) :
    outcome (gradient_max_abs_val_stop_strategy α) α :=
  let cout : Option (cout_line α) :=
    if s._verbose then some ⟨s._cur_iter, funct_value, some (max (abs funct_derivative))⟩ else none
  let s1 := { s with _cur_iter := s._cur_iter + 1 }
  if s1._max_iter ≠ 0 ∧ s1._cur_iter > s1._max_iter then
    ⟨false, s1, cout⟩
  else
    let s2 := { s1 with _current_gradient_max_abs_val := some (max (abs funct_derivative)) }
    if max (abs funct_derivative) < s2._min_gradient_abs_val then
      ⟨false, s2, cout⟩
    else
      ⟨true, s2, cout⟩

/-- Member function `current_gradient_max_abs_val`. -/
def current_gradient_max_abs_val (s : gradient_max_abs_val_stop_strategy α) : Option α :=
  s._current_gradient_max_abs_val

/-- Member function `current_iteration`. -/
def current_iteration (s : gradient_max_abs_val_stop_strategy α) : Int :=
  static_cast_int s._cur_iter

/-- Consecutive calls of `should_continue_search`, one per `(x, funct_value,
funct_derivative)` triple. -/
def calls {T : Type} (abs : T → T) (max : T → α) (s : gradient_max_abs_val_stop_strategy α)
    (inputs : List (T × α × T)) : List Bool × gradient_max_abs_val_stop_strategy α :=
  call_sequence (fun s i => should_continue_search abs max s i.1 i.2.1 i.2.2) s inputs

end gradient_max_abs_val_stop_strategy

/-! ## Matrix functions on column vectors -/

section matrix

variable {α : Type} [LinearOrderedField α]

/-- Modelled from the spec: `length` of dlib's matrix library, which is not part
of this header.  The spec gives it as the Euclidean norm `sqrt(sum d_i^2)` of
the vector; `sqrt` is the square root of the scalar type. -/
def matrix_length (sqrt : α → α) (d : List α) : α :=
  sqrt (d.map (fun x => x * x)).sum

/-- Modelled from the spec: `abs` of dlib's matrix library, which is not part of
this header: the vector of the absolute values `|d_i|` of the components. -/
def matrix_abs (d : List α) : List α :=
  d.map (fun x => |x|)

/-- Modelled from the spec: `max` of dlib's matrix library, which is not part of
this header: the largest component of a vector.  It is specified for non-empty
vectors only; the value `0` at the empty vector is a placeholder. -/
def matrix_max : List α → α
  | [] => 0
  | x :: rest => rest.foldl (fun val temp => if temp > val then temp else val) x

end matrix

/-! ## Use of an object by its owner -/

/-- A call the owner of an object can make after construction:
`should_continue_search` with its three arguments, or `be_verbose`. -/
inductive member_call (T α : Type) where
  | should_continue_search (x : T) (funct_value : α) (funct_derivative : T)
  | be_verbose

section perform

variable {α : Type} [LinearOrderedField α]

/-- The object after the member calls `ops` were made on it in order. -/
def objective_delta_stop_strategy.perform {T : Type} (sub : α → α → α) :
    objective_delta_stop_strategy α → List (member_call T α) → objective_delta_stop_strategy α
  | s, [] => s
  | s, member_call.should_continue_search x f g :: rest =>
    perform sub (objective_delta_stop_strategy.should_continue_search sub s x f g).self rest
  | s, member_call.be_verbose :: rest =>
    perform sub (objective_delta_stop_strategy.be_verbose s) rest

/-- The object after the member calls `ops` were made on it in order. -/
def gradient_norm_stop_strategy.perform {T : Type} (length : T → α) :
    gradient_norm_stop_strategy α → List (member_call T α) → gradient_norm_stop_strategy α
  | s, [] => s
  | s, member_call.should_continue_search x f d :: rest =>
    perform length (gradient_norm_stop_strategy.should_continue_search length s x f d).self rest
  | s, member_call.be_verbose :: rest =>
    perform length (gradient_norm_stop_strategy.be_verbose s) rest

/-- The object after the member calls `ops` were made on it in order. -/
def gradient_max_abs_val_stop_strategy.perform {T : Type} (abs : T → T) (max : T → α) :
    gradient_max_abs_val_stop_strategy α → List (member_call T α) →
      gradient_max_abs_val_stop_strategy α
  | s, [] => s
  | s, member_call.should_continue_search x f d :: rest =>
    perform abs max
      (gradient_max_abs_val_stop_strategy.should_continue_search abs max s x f d).self rest
  | s, member_call.be_verbose :: rest =>
    perform abs max (gradient_max_abs_val_stop_strategy.be_verbose s) rest

end perform

/-! ## General facts about sequences of calls -/

theorem DLIB_ASSERT_eq_some_iff {S : Type} (cond : Prop) [Decidable cond] (obj s : S) :
    DLIB_ASSERT cond obj = some s ↔ cond ∧ s = obj := by
  unfold DLIB_ASSERT
  by_cases h : cond
  · simp [h, eq_comm]
  · simp [h]

theorem call_sequence_length {S I α : Type} (call : S → I → outcome S α) (s : S) (l : List I) :
    (call_sequence call s l).1.length = l.length := by
  induction l generalizing s with
  | nil => rfl
  | cons i rest ih => simp [call_sequence, ih]

theorem call_sequence_append {S I α : Type} (call : S → I → outcome S α) (s : S)
    (l₁ l₂ : List I) :
    call_sequence call s (l₁ ++ l₂) =
      ((call_sequence call s l₁).1 ++ (call_sequence call (call_sequence call s l₁).2 l₂).1,
        (call_sequence call (call_sequence call s l₁).2 l₂).2) := by
  induction l₁ generalizing s with
  | nil => simp [call_sequence]
  | cons i rest ih => simp [call_sequence, ih]

theorem call_sequence_snoc {S I α : Type} (call : S → I → outcome S α) (s : S)
    (pre : List I) (i : I) :
    call_sequence call s (pre ++ [i]) =
      ((call_sequence call s pre).1 ++ [(call (call_sequence call s pre).2 i).result],
        (call (call_sequence call s pre).2 i).self) := by
  rw [call_sequence_append]
  simp [call_sequence]

/-- A quantity that every call increases by one has increased by the number of
calls after a sequence of calls. -/
theorem call_sequence_counter {S I α : Type} (call : S → I → outcome S α) (cnt : S → Nat)
    (h : ∀ s i, cnt (call s i).self = cnt s + 1) (s : S) (l : List I) :
    cnt (call_sequence call s l).2 = cnt s + l.length := by
  induction l generalizing s with
  | nil => simp [call_sequence]
  | cons i rest ih =>
    simp only [call_sequence, ih, h, List.length_cons]
    omega

/-- A quantity that no call changes is unchanged by a sequence of calls. -/
theorem call_sequence_preserved {S I α β : Type} (call : S → I → outcome S α) (f : S → β)
    (h : ∀ s i, f (call s i).self = f s) (s : S) (l : List I) :
    f (call_sequence call s l).2 = f s := by
  induction l generalizing s with
  | nil => simp [call_sequence]
  | cons i rest ih => simp only [call_sequence, ih, h]

/-- If every call made after `m` earlier calls returns `false`, at most `m`
calls of a sequence return `true`. -/
theorem call_sequence_count_le {S I α : Type} (call : S → I → outcome S α) (s : S) (m : Nat)
    (h : ∀ pre i, m ≤ pre.length → (call (call_sequence call s pre).2 i).result = false)
    (l : List I) :
    (call_sequence call s l).1.count true ≤ min l.length m := by
  induction l using List.reverseRecOn with
  | nil => simp [call_sequence]
  | append_singleton pre i ih =>
    rw [call_sequence_snoc]
    simp only [List.count_append, List.length_append, List.length_singleton]
    by_cases hm : m ≤ pre.length
    · rw [h pre i hm]
      have h0 : List.count true [false] = 0 := by decide
      rw [h0]
      simp only [le_min_iff] at ih ⊢
      omega
    · have : List.count true [(call (call_sequence call s pre).2 i).result] ≤ 1 := by
        have := List.count_le_length true [(call (call_sequence call s pre).2 i).result]
        simpa using this
      simp only [le_min_iff] at ih ⊢
      omega

/-- If every call of a sequence returns `true` wherever it is made, all results
of the sequence are `true`. -/
theorem call_sequence_all_true {S I α : Type} (call : S → I → outcome S α) (s : S)
    (h : ∀ pre i, (call (call_sequence call s pre).2 i).result = true) (l : List I) :
    ∀ r ∈ (call_sequence call s l).1, r = true := by
  induction l using List.reverseRecOn with
  | nil => simp [call_sequence]
  | append_singleton pre i ih =>
    rw [call_sequence_snoc]
    intro r hr
    rcases List.mem_append.mp hr with hr | hr
    · exact ih r hr
    · rw [List.mem_singleton.mp hr]
      exact h pre i

/-- Two objects driven by the same inputs: if, for related objects, a call that
returns `true` on the second also returns `true` on the first and leaves the
objects related, the first `false` of the second object comes no later than
the first `false` of the first. -/
theorem call_sequence_first_false_le {S S' I α : Type} (call : S → I → outcome S α)
    (call' : S' → I → outcome S' α) (R : S → S' → Prop)
    (hstep : ∀ s s' i, R s s' → (call' s' i).result = true →
      (call s i).result = true ∧ R (call s i).self (call' s' i).self)
    (s : S) (s' : S') (l : List I) (h : R s s') :
    (call_sequence call' s' l).1.findIdx (fun r => !r) ≤
      (call_sequence call s l).1.findIdx (fun r => !r) := by
  induction l generalizing s s' with
  | nil => simp [call_sequence]
  | cons i rest ih =>
    simp only [call_sequence, List.findIdx_cons]
    cases hr' : (call' s' i).result
    · simp
    · have h2 := hstep s s' i h hr'
      rw [h2.1]
      simp only [Bool.not_true, cond_false]
      exact Nat.succ_le_succ (ih _ _ h2.2)

theorem static_cast_int_of_lt (n : Nat) (h : n < 2147483648) : static_cast_int n = n := by
  unfold static_cast_int
  omega

/-! ## Facts about the arithmetic of `double` -/

section binary64_facts

variable {α : Type} [LinearOrderedField α] [FloorRing α]

/-- A number within `1/2` of an integer is rounded to that integer. -/
theorem round_half_even_eq_of_near (y : α) (n : Int) (h : |y - n| < 1 / 2) :
    round_half_even y = n := by
  rw [abs_lt] at h
  unfold round_half_even
  by_cases hy : (n : α) ≤ y
  · have hf : ⌊y⌋ = n := by
      rw [Int.floor_eq_iff]
      constructor
      · exact hy
      · linarith [h.2]
    rw [hf, if_pos (by linarith [h.2])]
  · have hf : ⌊y⌋ = n - 1 := by
      rw [Int.floor_eq_iff]
      push_cast
      constructor
      · linarith [h.1]
      · linarith [not_le.mp hy]
    rw [hf]
    push_cast
    have h1 : ¬ (y - ((n : α) - 1) < 1 / 2) := by
      rw [not_lt]
      linarith [h.1]
    have h2 : (1 : α) / 2 < y - ((n : α) - 1) := by linarith [h.1]
    rw [if_neg h1, if_pos h2]
    ring

theorem int_log_two_eq (x : α) (e : Int) (h1 : (2 : α) ^ e ≤ x) (h2 : x < (2 : α) ^ (e + 1)) :
    Int.log 2 x = e := by
  have hx : 0 < x := lt_of_lt_of_le (zpow_pos (by norm_num) e) h1
  apply le_antisymm
  · have h3 := (Int.lt_zpow_iff_log_lt (by norm_num : 1 < 2) hx).mp
      (by simpa using h2 : x < ((2 : Nat) : α) ^ (e + 1))
    omega
  · exact (Int.zpow_le_iff_le_log (by norm_num : 1 < 2) hx).mp
      (by simpa using h1 : ((2 : Nat) : α) ^ e ≤ x)

/-- Evaluation of `binary64_round` at a number of normal size: with
`2^e <= |x| < 2^(e+1)` and `x / 2^(e-52)` within `1/2` of the integer `n`, the
nearest binary64 value is `n * 2^(e-52)`. -/
theorem binary64_round_eq_of_near (x : α) (e n : Int) (he : -1022 ≤ e)
    (h1 : (2 : α) ^ e ≤ |x|) (h2 : |x| < (2 : α) ^ (e + 1))
    (hn : |x / 2 ^ (e - 52) - n| < 1 / 2) :
    binary64_round x = n * 2 ^ (e - 52) := by
  have hx : x ≠ 0 := by
    intro h
    rw [h, abs_zero] at h1
    exact absurd h1 (not_le.mpr (zpow_pos (by norm_num) e))
  have hexp : binary64_exponent x = e := by
    unfold binary64_exponent
    rw [int_log_two_eq |x| e h1 h2]
    exact max_eq_left he
  unfold binary64_round
  rw [if_neg hx, hexp, round_half_even_eq_of_near _ n hn]

/-- Rounding does not go below an integer that the number is not below. -/
theorem round_half_even_ge (y : α) (n : Int) (h : (n : α) ≤ y) : n ≤ round_half_even y := by
  have hf : n ≤ ⌊y⌋ := Int.le_floor.mpr h
  unfold round_half_even
  split_ifs <;> omega

/-- Rounding does not go above an integer that the number is not above. -/
theorem round_half_even_le (y : α) (n : Int) (h : y ≤ (n : α)) : round_half_even y ≤ n := by
  have hf : ⌊y⌋ ≤ n := by
    have h1 : ((⌊y⌋ : Int) : α) ≤ (n : α) := le_trans (Int.floor_le y) h
    exact_mod_cast h1
  by_cases hfrac : y - ⌊y⌋ < 1 / 2
  · unfold round_half_even
    rw [if_pos hfrac]
    exact hf
  · have hne : ⌊y⌋ ≠ n := by
      intro he
      apply hfrac
      rw [he]
      have : y - (n : α) ≤ 0 := by linarith
      linarith
    have hlt : ⌊y⌋ + 1 ≤ n := by omega
    unfold round_half_even
    rw [if_neg hfrac]
    split_ifs <;> omega

theorem binary64_exponent_ge (x : α) : -1022 ≤ binary64_exponent x :=
  le_max_right _ _

theorem binary64_round_of_ne_zero (x : α) (hx : x ≠ 0) :
    binary64_round x =
      (round_half_even (x / 2 ^ (binary64_exponent x - 52)) : α) *
        2 ^ (binary64_exponent x - 52) := by
  unfold binary64_round
  rw [if_neg hx]

/-- On a multiple `n * 2^(e-52)` of its spacing that is at most `|d|`, the
rounded value of `d` is at least that multiple in absolute value. -/
theorem binary64_round_abs_ge_multiple (d : α) (n : Int)
    (h : (n : α) * 2 ^ (binary64_exponent d - 52) ≤ |d|) :
    (n : α) * 2 ^ (binary64_exponent d - 52) ≤ |binary64_round d| := by
  have hq : (0 : α) < 2 ^ (binary64_exponent d - 52) := zpow_pos (by norm_num) _
  by_cases hd : d = 0
  · rw [hd, abs_zero] at h
    rw [hd] at hq
    rw [hd]
    exact le_trans h (abs_nonneg _)
  · rw [binary64_round_of_ne_zero d hd, abs_mul, abs_of_pos hq]
    refine mul_le_mul_of_nonneg_right ?_ (le_of_lt hq)
    rcases le_total 0 d with hpos | hneg
    · rw [abs_of_nonneg hpos] at h
      have h1 : (n : α) ≤ d / 2 ^ (binary64_exponent d - 52) := (le_div_iff₀ hq).mpr h
      have h2 := round_half_even_ge _ n h1
      have h3 : (n : α) ≤ (round_half_even (d / 2 ^ (binary64_exponent d - 52)) : α) := by
        exact_mod_cast h2
      exact le_trans h3 (le_abs_self _)
    · rw [abs_of_nonpos hneg] at h
      have h1 : d / 2 ^ (binary64_exponent d - 52) ≤ ((-n : Int) : α) := by
        rw [div_le_iff₀ hq]
        push_cast
        linarith
      have h2 := round_half_even_le _ (-n) h1
      have h3 : (round_half_even (d / 2 ^ (binary64_exponent d - 52)) : α) ≤ -(n : α) := by
        exact_mod_cast h2
      exact le_trans (by linarith) (neg_le_abs _)

/-- Rounding is monotone against binary64 values: a binary64 value `t >= 0` that
is at most `|d|` is at most `|binary64_round d|`. -/
theorem binary64_round_abs_ge_of_le (t d : α) (ht : 0 ≤ t) (hrep : binary64_round t = t)
    (h : t ≤ |d|) : t ≤ |binary64_round d| := by
  rcases eq_or_lt_of_le ht with h0 | hpos
  · rw [← h0]
    exact abs_nonneg _
  · have htne : t ≠ 0 := ne_of_gt hpos
    have hdpos : 0 < |d| := lt_of_lt_of_le hpos h
    have hqt : (0 : α) < 2 ^ (binary64_exponent t - 52) := zpow_pos (by norm_num) _
    have hform := binary64_round_of_ne_zero t htne
    rw [hrep] at hform
    have hlog : Int.log 2 |t| ≤ Int.log 2 |d| := by
      rw [abs_of_pos hpos]
      exact Int.log_mono_right hpos h
    have hexp : binary64_exponent t ≤ binary64_exponent d := by
      unfold binary64_exponent
      exact max_le_max hlog (le_refl _)
    rcases eq_or_lt_of_le hexp with heq | hlt
    · have hRq : (round_half_even (t / 2 ^ (binary64_exponent t - 52)) : α) *
          2 ^ (binary64_exponent d - 52) = t := by
        rw [← heq]
        exact hform.symm
      have key := binary64_round_abs_ge_multiple d
        (round_half_even (t / 2 ^ (binary64_exponent t - 52))) (by
          rw [hRq]
          exact h)
      rw [hRq] at key
      exact key
    · have hEd : binary64_exponent d = Int.log 2 |d| := by
        have hge := binary64_exponent_ge t
        unfold binary64_exponent at hlt ⊢
        rcases le_total (Int.log 2 |d|) (-1022) with hle | hle
        · rw [max_eq_right hle] at hlt
          unfold binary64_exponent at hge
          omega
        · exact max_eq_left hle
      have h2E : (2 : α) ^ binary64_exponent d ≤ |d| := by
        rw [hEd]
        have hz : ((2 : Nat) : α) ^ Int.log 2 |d| ≤ |d| :=
          Int.zpow_log_le_self (by norm_num) hdpos
        simpa using hz
      have hsplit : ((4503599627370496 : Int) : α) * 2 ^ (binary64_exponent d - 52) =
          2 ^ binary64_exponent d := by
        have h52 : ((4503599627370496 : Int) : α) = 2 ^ (52 : Int) := by norm_num
        rw [h52, ← zpow_add₀ (by norm_num : (2 : α) ≠ 0)]
        congr 1
        ring
      have key := binary64_round_abs_ge_multiple d 4503599627370496 (by
        rw [hsplit]
        exact h2E)
      rw [hsplit] at key
      refine le_trans ?_ key
      have ht1 : t < ((2 : Nat) : α) ^ (Int.log 2 t + 1) := Int.lt_zpow_succ_log_self (by norm_num) t
      have ht2 : Int.log 2 t + 1 ≤ binary64_exponent d := by
        have : Int.log 2 |t| ≤ binary64_exponent t := le_max_left _ _
        rw [abs_of_pos hpos] at this
        omega
      refine le_trans (le_of_lt ht1) ?_
      simp only [Nat.cast_ofNat]
      exact zpow_le_zpow_right₀ (by norm_num) ht2

theorem binary64_round_zero : binary64_round (0 : α) = 0 := by
  simp [binary64_round]

theorem binary64_sub_self (a : α) : binary64_sub a a = 0 := by
  simp [binary64_sub, binary64_round]

/-- When the computed difference is below a binary64 tolerance in absolute
value, so is the exact difference. -/
theorem binary64_sub_abs_lt (t a b : α) (ht : 0 ≤ t) (hrep : binary64_round t = t)
    (h : |binary64_sub a b| < t) : |a - b| < t := by
  by_contra hnot
  exact absurd h (not_lt.mpr (binary64_round_abs_ge_of_le t (a - b) ht hrep (not_lt.mp hnot)))

theorem binary64_sub_one_two_pow_neg_sixty :
    binary64_sub (1 : α) (2 ^ (-60 : Int)) = 1 := by
  unfold binary64_sub
  rw [binary64_round_eq_of_near _ (-1) 9007199254740992 (by norm_num)]
  · norm_num
  · norm_num [abs_of_nonneg]
  · norm_num [abs_of_nonneg]
  · norm_num [abs_lt]

theorem binary64_sub_abs_lt_of_objectives :
    |binary64_sub (9.9999 : α) 10.0| < 0.01 := by
  unfold binary64_sub
  rw [binary64_round_eq_of_near _ (-14) (-7378697629483821) (by norm_num)]
  · norm_num [abs_lt]
  · norm_num [abs_of_nonneg]
  · norm_num [abs_of_nonneg]
  · norm_num [abs_lt]

theorem binary64_sub_five_ten : binary64_sub (5.0 : α) 10.0 = -5 := by
  unfold binary64_sub
  rw [binary64_round_eq_of_near _ 2 (-5629499534213120) (by norm_num)]
  · norm_num
  · norm_num [abs_of_nonneg]
  · norm_num [abs_of_nonneg]
  · norm_num [abs_lt]

theorem binary64_round_one : binary64_round (1 : α) = 1 := by
  rw [binary64_round_eq_of_near _ 0 4503599627370496 (by norm_num)]
  · norm_num
  · norm_num
  · norm_num
  · norm_num

end binary64_facts

/-! ## Facts about `objective_delta_stop_strategy` -/

section objective_delta

variable {α : Type} [LinearOrderedField α]

open objective_delta_stop_strategy

theorem objective_delta_create_eq_some_iff (t : α) (s : objective_delta_stop_strategy α) :
    create t = some s ↔ 0 ≤ t ∧ s = init t := by
  simp [create, DLIB_ASSERT_eq_some_iff]

theorem objective_delta_create_max_iter_eq_some_iff (t : α) (m : Nat)
    (s : objective_delta_stop_strategy α) :
    create_max_iter t m = some s ↔ (0 ≤ t ∧ 0 < m) ∧ s = init_max_iter t m := by
  simp [create_max_iter, DLIB_ASSERT_eq_some_iff]

/-- When a call of `objective_delta_stop_strategy::should_continue_search`
returns `false`. -/
theorem objective_delta_result_eq_false_iff {T : Type} (sub : α → α → α)
    (s : objective_delta_stop_strategy α)
    (x : T) (f : α) (g : T) :
    (should_continue_search sub s x f g).result = false ↔
      s._been_used = true ∧
        ((s._max_iter ≠ 0 ∧ s._cur_iter + 1 > s._max_iter) ∨
          |sub f s._prev_funct_value| < s._min_delta) := by
  unfold should_continue_search
  by_cases hb : s._been_used = true
  · by_cases hc : s._max_iter ≠ 0 ∧ s._cur_iter + 1 > s._max_iter
    · simp [hb, hc]
    · by_cases hd : |sub f s._prev_funct_value| < s._min_delta
      · simp [hb, hc, hd]
      · simp [hb, hc, hd]
  · simp [hb]

theorem objective_delta_cur_iter_step {T : Type} (sub : α → α → α)
    (s : objective_delta_stop_strategy α)
    (x : T) (f : α) (g : T) :
    (should_continue_search sub s x f g).self._cur_iter = s._cur_iter + 1 := by
  unfold should_continue_search
  simp only []
  split_ifs <;> rfl

theorem objective_delta_max_iter_step {T : Type} (sub : α → α → α)
    (s : objective_delta_stop_strategy α)
    (x : T) (f : α) (g : T) :
    (should_continue_search sub s x f g).self._max_iter = s._max_iter := by
  unfold should_continue_search
  simp only []
  split_ifs <;> rfl

theorem objective_delta_min_delta_step {T : Type} (sub : α → α → α)
    (s : objective_delta_stop_strategy α)
    (x : T) (f : α) (g : T) :
    (should_continue_search sub s x f g).self._min_delta = s._min_delta := by
  unfold should_continue_search
  simp only []
  split_ifs <;> rfl

/-- After any call the object has been used. -/
theorem objective_delta_been_used_step {T : Type} (sub : α → α → α)
    (s : objective_delta_stop_strategy α)
    (x : T) (f : α) (g : T) :
    (should_continue_search sub s x f g).self._been_used = true := by
  unfold should_continue_search
  simp only []
  split_ifs with h1 h2 h3 <;> first | rfl | exact h1

theorem objective_delta_calls_cur_iter {T : Type} (sub : α → α → α)
    (s : objective_delta_stop_strategy α)
    (l : List (T × α × T)) :
    (calls sub s l).2._cur_iter = s._cur_iter + l.length :=
  call_sequence_counter _ (fun s => s._cur_iter)
    (fun s i => objective_delta_cur_iter_step sub s i.1 i.2.1 i.2.2) s l

theorem objective_delta_calls_max_iter {T : Type} (sub : α → α → α)
    (s : objective_delta_stop_strategy α)
    (l : List (T × α × T)) :
    (calls sub s l).2._max_iter = s._max_iter :=
  call_sequence_preserved _ (fun s => s._max_iter)
    (fun s i => objective_delta_max_iter_step sub s i.1 i.2.1 i.2.2) s l

theorem objective_delta_calls_min_delta {T : Type} (sub : α → α → α)
    (s : objective_delta_stop_strategy α)
    (l : List (T × α × T)) :
    (calls sub s l).2._min_delta = s._min_delta :=
  call_sequence_preserved _ (fun s => s._min_delta)
    (fun s i => objective_delta_min_delta_step sub s i.1 i.2.1 i.2.2) s l

/-- After a sequence of calls the object has been used exactly when it had been
used before or at least one call was made. -/
theorem objective_delta_calls_been_used {T : Type} (sub : α → α → α)
    (s : objective_delta_stop_strategy α)
    (l : List (T × α × T)) :
    (calls sub s l).2._been_used = true ↔ s._been_used = true ∨ l ≠ [] := by
  induction l using List.reverseRecOn with
  | nil => simp [calls, call_sequence]
  | append_singleton pre i _ =>
    unfold calls
    rw [call_sequence_snoc]
    simp [objective_delta_been_used_step]

/-- A call that returns `true` records its objective value, a call that returns
`false` leaves the recorded value as it was. -/
theorem objective_delta_prev_step {T : Type} (sub : α → α → α)
    (s : objective_delta_stop_strategy α)
    (x : T) (f : α) (g : T) :
    (should_continue_search sub s x f g).self._prev_funct_value =
      if (should_continue_search sub s x f g).result = true then f else s._prev_funct_value := by
  unfold should_continue_search
  simp only []
  split_ifs <;> simp_all

/-- A call that returns `false` leaves `_been_used` as it was. -/
theorem objective_delta_been_used_step_of_false {T : Type} (sub : α → α → α)
    (s : objective_delta_stop_strategy α) (x : T) (f : α) (g : T)
    (h : (should_continue_search sub s x f g).result = false) :
    (should_continue_search sub s x f g).self._been_used = s._been_used := by
  rw [objective_delta_been_used_step]
  exact ((objective_delta_result_eq_false_iff sub s x f g).mp h).1.symm

/-- After a call the object has been used exactly when it had been used before
or the call returned `true`. -/
theorem objective_delta_been_used_step_eq {T : Type} (sub : α → α → α)
    (s : objective_delta_stop_strategy α)
    (x : T) (f : α) (g : T) :
    (should_continue_search sub s x f g).self._been_used =
      (s._been_used || (should_continue_search sub s x f g).result) := by
  rw [objective_delta_been_used_step]
  cases hr : (should_continue_search sub s x f g).result
  · rw [((objective_delta_result_eq_false_iff sub s x f g).mp hr).1]
    rfl
  · simp

/-- The recorded objective after a sequence of calls is the objective of the
last call that returned `true`, or the value recorded before when no call
did. -/
theorem objective_delta_prev_after_calls {T : Type} (sub : α → α → α)
    (s : objective_delta_stop_strategy α)
    (inputs : List (T × α × T)) :
    (calls sub s inputs).2._prev_funct_value =
      ((((inputs.zip (calls sub s inputs).1).filter (fun p => p.2)).getLast?).map
        (fun p => p.1.2.1)).getD s._prev_funct_value := by
  induction inputs using List.reverseRecOn with
  | nil => simp [calls, call_sequence]
  | append_singleton pre i ih =>
    have hlen : pre.length = (calls sub s pre).1.length := by
      unfold calls
      rw [call_sequence_length]
    have hsnoc : calls sub s (pre ++ [i]) =
        ((calls sub s pre).1 ++ [(should_continue_search sub (calls sub s pre).2 i.1 i.2.1 i.2.2).result],
          (should_continue_search sub (calls sub s pre).2 i.1 i.2.1 i.2.2).self) := by
      unfold calls
      rw [call_sequence_snoc]
    rw [hsnoc]
    simp only []
    rw [List.zip_append hlen, List.filter_append, objective_delta_prev_step, ih]
    cases hr : (should_continue_search sub (calls sub s pre).2 i.1 i.2.1 i.2.2).result
    · simp
    · simp

/-- Decision of the call made after the calls `pre`. -/
theorem objective_delta_result_after_calls {T : Type} (sub : α → α → α)
    (s : objective_delta_stop_strategy α)
    (pre : List (T × α × T)) (x : T) (f : α) (g : T) :
    (should_continue_search sub (calls sub s pre).2 x f g).result = false ↔
      (s._been_used = true ∨ pre ≠ []) ∧
        ((s._max_iter ≠ 0 ∧ s._cur_iter + pre.length + 1 > s._max_iter) ∨
          |sub f (calls sub s pre).2._prev_funct_value| < s._min_delta) := by
  rw [objective_delta_result_eq_false_iff, objective_delta_calls_cur_iter,
    objective_delta_calls_max_iter, objective_delta_calls_min_delta,
    objective_delta_calls_been_used]

/-- Results of the first two calls on a new uncapped object. -/
theorem objective_delta_two_calls {T : Type} (sub : α → α → α) (t : α) (x1 x2 g1 g2 : T)
    (f1 f2 : α) :
    (calls sub (init t) [(x1, f1, g1), (x2, f2, g2)]).1 =
      [true, !decide (|sub f2 f1| < t)] := by
  by_cases h : |sub f2 f1| < t
  · simp [calls, call_sequence, should_continue_search, init, h]
  · simp [calls, call_sequence, should_continue_search, init, h]

/-- Results of the first three calls on a new object with cap `2`. -/
theorem objective_delta_three_calls_cap_two {T : Type} (sub : α → α → α) (t : α)
    (x1 x2 x3 g1 g2 g3 : T) (v1 v2 v3 : α) :
    (calls sub (init_max_iter t 2) [(x1, v1, g1), (x2, v2, g2), (x3, v3, g3)]).1 =
      [true, !decide (|sub v2 v1| < t), false] := by
  by_cases h : |sub v2 v1| < t
  · simp [calls, call_sequence, should_continue_search, init_max_iter, h]
  · simp [calls, call_sequence, should_continue_search, init_max_iter, h]

theorem objective_delta_two_calls_of_lt {T : Type} (sub : α → α → α) (t : α)
    (x1 x2 g1 g2 : T) (f1 f2 : α) (h : |sub f2 f1| < t) :
    (calls sub (init t) [(x1, f1, g1), (x2, f2, g2)]).1 = [true, false] := by
  rw [objective_delta_two_calls, decide_eq_true h]
  rfl

theorem objective_delta_two_calls_of_not_lt {T : Type} (sub : α → α → α) (t : α)
    (x1 x2 g1 g2 : T) (f1 f2 : α) (h : ¬ |sub f2 f1| < t) :
    (calls sub (init t) [(x1, f1, g1), (x2, f2, g2)]).1 = [true, true] := by
  rw [objective_delta_two_calls, decide_eq_false h]
  rfl

theorem objective_delta_three_calls_cap_two_of_lt {T : Type} (sub : α → α → α) (t : α)
    (x1 x2 x3 g1 g2 g3 : T) (v1 v2 v3 : α) (h : |sub v2 v1| < t) :
    (calls sub (init_max_iter t 2) [(x1, v1, g1), (x2, v2, g2), (x3, v3, g3)]).1 =
      [true, false, false] := by
  rw [objective_delta_three_calls_cap_two, decide_eq_true h]
  rfl

end objective_delta

/-! ## Facts about `gradient_norm_stop_strategy` -/

section gradient_norm

variable {α : Type} [LinearOrderedField α]

open gradient_norm_stop_strategy

theorem gradient_norm_create_eq_some_iff (t : α) (s : gradient_norm_stop_strategy α) :
    create t = some s ↔ 0 ≤ t ∧ s = init t := by
  simp [create, DLIB_ASSERT_eq_some_iff]

theorem gradient_norm_create_max_iter_eq_some_iff (t : α) (m : Nat)
    (s : gradient_norm_stop_strategy α) :
    create_max_iter t m = some s ↔ (0 ≤ t ∧ 0 < m) ∧ s = init_max_iter t m := by
  simp [create_max_iter, DLIB_ASSERT_eq_some_iff]

/-- When a call of `gradient_norm_stop_strategy::should_continue_search`
returns `false`. -/
theorem gradient_norm_result_eq_false_iff {T : Type} (length : T → α)
    (s : gradient_norm_stop_strategy α) (x : T) (f : α) (d : T) :
    (should_continue_search length s x f d).result = false ↔
      (s._max_iter ≠ 0 ∧ s._cur_iter + 1 > s._max_iter) ∨ length d < s._min_norm := by
  unfold should_continue_search
  by_cases hc : s._max_iter ≠ 0 ∧ s._cur_iter + 1 > s._max_iter
  · simp [hc]
  · by_cases hd : length d < s._min_norm
    · simp [hc, hd]
    · simp [hc, hd]

theorem gradient_norm_cur_iter_step {T : Type} (length : T → α)
    (s : gradient_norm_stop_strategy α) (x : T) (f : α) (d : T) :
    (should_continue_search length s x f d).self._cur_iter = s._cur_iter + 1 := by
  unfold should_continue_search
  simp only []
  split_ifs <;> rfl

theorem gradient_norm_max_iter_step {T : Type} (length : T → α)
    (s : gradient_norm_stop_strategy α) (x : T) (f : α) (d : T) :
    (should_continue_search length s x f d).self._max_iter = s._max_iter := by
  unfold should_continue_search
  simp only []
  split_ifs <;> rfl

theorem gradient_norm_min_norm_step {T : Type} (length : T → α)
    (s : gradient_norm_stop_strategy α) (x : T) (f : α) (d : T) :
    (should_continue_search length s x f d).self._min_norm = s._min_norm := by
  unfold should_continue_search
  simp only []
  split_ifs <;> rfl

theorem gradient_norm_calls_cur_iter {T : Type} (length : T → α)
    (s : gradient_norm_stop_strategy α) (l : List (T × α × T)) :
    (calls length s l).2._cur_iter = s._cur_iter + l.length :=
  call_sequence_counter _ (fun s => s._cur_iter)
    (fun s i => gradient_norm_cur_iter_step length s i.1 i.2.1 i.2.2) s l

theorem gradient_norm_calls_max_iter {T : Type} (length : T → α)
    (s : gradient_norm_stop_strategy α) (l : List (T × α × T)) :
    (calls length s l).2._max_iter = s._max_iter :=
  call_sequence_preserved _ (fun s => s._max_iter)
    (fun s i => gradient_norm_max_iter_step length s i.1 i.2.1 i.2.2) s l

theorem gradient_norm_calls_min_norm {T : Type} (length : T → α)
    (s : gradient_norm_stop_strategy α) (l : List (T × α × T)) :
    (calls length s l).2._min_norm = s._min_norm :=
  call_sequence_preserved _ (fun s => s._min_norm)
    (fun s i => gradient_norm_min_norm_step length s i.1 i.2.1 i.2.2) s l

/-- The stored norm after a call: untouched by a call stopped by the cap, the
norm of the derivative otherwise. -/
theorem gradient_norm_metric_step {T : Type} (length : T → α)
    (s : gradient_norm_stop_strategy α) (x : T) (f : α) (d : T) :
    (should_continue_search length s x f d).self._current_gradient_norm =
      if s._max_iter ≠ 0 ∧ s._cur_iter + 1 > s._max_iter then s._current_gradient_norm
      else some (length d) := by
  unfold should_continue_search
  by_cases hc : s._max_iter ≠ 0 ∧ s._cur_iter + 1 > s._max_iter
  · simp [hc]
  · by_cases hd : length d < s._min_norm
    · simp [hc, hd]
    · simp [hc, hd]

/-- The stored norm after a sequence of calls on a new object: the norm of the
derivative of the last call that the cap did not stop. -/
theorem gradient_norm_metric_after_calls {T : Type} (length : T → α) (t : α) (m : Nat)
    (inputs : List (T × α × T)) :
    (calls length (init_max_iter t m) inputs).2._current_gradient_norm =
      ((if m = 0 then inputs else inputs.take m).getLast?).map (fun i => length i.2.2) := by
  induction inputs using List.reverseRecOn with
  | nil => simp [calls, call_sequence, init_max_iter]
  | append_singleton pre i ih =>
    have hstep : (calls length (init_max_iter t m) (pre ++ [i])).2 =
        (should_continue_search length (calls length (init_max_iter t m) pre).2
          i.1 i.2.1 i.2.2).self := by
      unfold calls
      rw [call_sequence_snoc]
    rw [hstep, gradient_norm_metric_step, gradient_norm_calls_cur_iter,
      gradient_norm_calls_max_iter, ih]
    have h0 : (init_max_iter t m)._cur_iter = 0 := rfl
    have hm : (init_max_iter t m)._max_iter = m := rfl
    rw [h0, hm]
    by_cases hz : m = 0
    · simp [hz]
    · by_cases hle : m ≤ pre.length
      · have hc : m ≠ 0 ∧ 0 + pre.length + 1 > m := ⟨hz, by omega⟩
        rw [if_pos hc, if_neg hz, if_neg hz, List.take_append_of_le_length hle]
      · have hc : ¬ (m ≠ 0 ∧ 0 + pre.length + 1 > m) := by
          rintro ⟨_, h⟩
          omega
        have hlen : (pre ++ [i]).length ≤ m := by
          simp only [List.length_append, List.length_singleton]
          omega
        rw [if_neg hc, if_neg hz, List.take_of_length_le hlen, List.getLast?_concat]
        rfl

/-- Decision of the call made after the calls `pre` on an object that started
with tolerance `t`, cap `m` and no call made. -/
theorem gradient_norm_result_after_calls {T : Type} (length : T → α) (v : Bool) (t : α)
    (m : Nat) (c : Option α) (pre : List (T × α × T)) (x : T) (f : α) (d : T) :
    (should_continue_search length
        (calls length
          { _verbose := v, _min_norm := t, _max_iter := m, _cur_iter := 0,
            _current_gradient_norm := c } pre).2 x f d).result = false ↔
      (m ≠ 0 ∧ pre.length + 1 > m) ∨ length d < t := by
  rw [gradient_norm_result_eq_false_iff, gradient_norm_calls_cur_iter,
    gradient_norm_calls_max_iter, gradient_norm_calls_min_norm]
  simp

end gradient_norm

/-! ## Facts about `gradient_max_abs_val_stop_strategy` -/

section gradient_max_abs_val

variable {α : Type} [LinearOrderedField α]

open gradient_max_abs_val_stop_strategy

theorem gradient_max_abs_val_create_eq_some_iff (min_norm t : α)
    (s : gradient_max_abs_val_stop_strategy α) :
    create min_norm t = some s ↔ 0 ≤ min_norm ∧ s = init t := by
  simp [create, DLIB_ASSERT_eq_some_iff]

theorem gradient_max_abs_val_create_max_iter_eq_some_iff (min_norm t : α) (m : Nat)
    (s : gradient_max_abs_val_stop_strategy α) :
    create_max_iter min_norm t m = some s ↔ (0 ≤ min_norm ∧ 0 < m) ∧ s = init_max_iter t m := by
  simp [create_max_iter, DLIB_ASSERT_eq_some_iff]

/-- When a call of `gradient_max_abs_val_stop_strategy::should_continue_search`
returns `false`. -/
theorem gradient_max_abs_val_result_eq_false_iff {T : Type} (abs : T → T) (max : T → α)
    (s : gradient_max_abs_val_stop_strategy α) (x : T) (f : α) (d : T) :
    (should_continue_search abs max s x f d).result = false ↔
      (s._max_iter ≠ 0 ∧ s._cur_iter + 1 > s._max_iter) ∨
        max (abs d) < s._min_gradient_abs_val := by
  unfold should_continue_search
  by_cases hc : s._max_iter ≠ 0 ∧ s._cur_iter + 1 > s._max_iter
  · simp [hc]
  · by_cases hd : max (abs d) < s._min_gradient_abs_val
    · simp [hc, hd]
    · simp [hc, hd]

theorem gradient_max_abs_val_cur_iter_step {T : Type} (abs : T → T) (max : T → α)
    (s : gradient_max_abs_val_stop_strategy α) (x : T) (f : α) (d : T) :
    (should_continue_search abs max s x f d).self._cur_iter = s._cur_iter + 1 := by
  unfold should_continue_search
  simp only []
  split_ifs <;> rfl

theorem gradient_max_abs_val_max_iter_step {T : Type} (abs : T → T) (max : T → α)
    (s : gradient_max_abs_val_stop_strategy α) (x : T) (f : α) (d : T) :
    (should_continue_search abs max s x f d).self._max_iter = s._max_iter := by
  unfold should_continue_search
  simp only []
  split_ifs <;> rfl

theorem gradient_max_abs_val_tolerance_step {T : Type} (abs : T → T) (max : T → α)
    (s : gradient_max_abs_val_stop_strategy α) (x : T) (f : α) (d : T) :
    (should_continue_search abs max s x f d).self._min_gradient_abs_val =
      s._min_gradient_abs_val := by
  unfold should_continue_search
  simp only []
  split_ifs <;> rfl

theorem gradient_max_abs_val_calls_cur_iter {T : Type} (abs : T → T) (max : T → α)
    (s : gradient_max_abs_val_stop_strategy α) (l : List (T × α × T)) :
    (calls abs max s l).2._cur_iter = s._cur_iter + l.length :=
  call_sequence_counter _ (fun s => s._cur_iter)
    (fun s i => gradient_max_abs_val_cur_iter_step abs max s i.1 i.2.1 i.2.2) s l

theorem gradient_max_abs_val_calls_max_iter {T : Type} (abs : T → T) (max : T → α)
    (s : gradient_max_abs_val_stop_strategy α) (l : List (T × α × T)) :
    (calls abs max s l).2._max_iter = s._max_iter :=
  call_sequence_preserved _ (fun s => s._max_iter)
    (fun s i => gradient_max_abs_val_max_iter_step abs max s i.1 i.2.1 i.2.2) s l

theorem gradient_max_abs_val_calls_tolerance {T : Type} (abs : T → T) (max : T → α)
    (s : gradient_max_abs_val_stop_strategy α) (l : List (T × α × T)) :
    (calls abs max s l).2._min_gradient_abs_val = s._min_gradient_abs_val :=
  call_sequence_preserved _ (fun s => s._min_gradient_abs_val)
    (fun s i => gradient_max_abs_val_tolerance_step abs max s i.1 i.2.1 i.2.2) s l

/-- The stored value after a call: untouched by a call stopped by the cap, the
greatest absolute component of the derivative otherwise. -/
theorem gradient_max_abs_val_metric_step {T : Type} (abs : T → T) (max : T → α)
    (s : gradient_max_abs_val_stop_strategy α) (x : T) (f : α) (d : T) :
    (should_continue_search abs max s x f d).self._current_gradient_max_abs_val =
      if s._max_iter ≠ 0 ∧ s._cur_iter + 1 > s._max_iter then
        s._current_gradient_max_abs_val
      else some (max (abs d)) := by
  unfold should_continue_search
  by_cases hc : s._max_iter ≠ 0 ∧ s._cur_iter + 1 > s._max_iter
  · simp [hc]
  · by_cases hd : max (abs d) < s._min_gradient_abs_val
    · simp [hc, hd]
    · simp [hc, hd]

/-- The stored value after a sequence of calls on a new object: the greatest
absolute component of the derivative of the last call that the cap did not
stop. -/
theorem gradient_max_abs_val_metric_after_calls {T : Type} (abs : T → T) (max : T → α)
    (t : α) (m : Nat) (inputs : List (T × α × T)) :
    (calls abs max (init_max_iter t m) inputs).2._current_gradient_max_abs_val =
      ((if m = 0 then inputs else inputs.take m).getLast?).map
        (fun i => max (abs i.2.2)) := by
  induction inputs using List.reverseRecOn with
  | nil => simp [calls, call_sequence, init_max_iter]
  | append_singleton pre i ih =>
    have hstep : (calls abs max (init_max_iter t m) (pre ++ [i])).2 =
        (should_continue_search abs max (calls abs max (init_max_iter t m) pre).2
          i.1 i.2.1 i.2.2).self := by
      unfold calls
      rw [call_sequence_snoc]
    rw [hstep, gradient_max_abs_val_metric_step, gradient_max_abs_val_calls_cur_iter,
      gradient_max_abs_val_calls_max_iter, ih]
    have h0 : (init_max_iter t m)._cur_iter = 0 := rfl
    have hm : (init_max_iter t m)._max_iter = m := rfl
    rw [h0, hm]
    by_cases hz : m = 0
    · simp [hz]
    · by_cases hle : m ≤ pre.length
      · have hc : m ≠ 0 ∧ 0 + pre.length + 1 > m := ⟨hz, by omega⟩
        rw [if_pos hc, if_neg hz, if_neg hz, List.take_append_of_le_length hle]
      · have hc : ¬ (m ≠ 0 ∧ 0 + pre.length + 1 > m) := by
          rintro ⟨_, h⟩
          omega
        have hlen : (pre ++ [i]).length ≤ m := by
          simp only [List.length_append, List.length_singleton]
          omega
        rw [if_neg hc, if_neg hz, List.take_of_length_le hlen, List.getLast?_concat]
        rfl

/-- Decision of the call made after the calls `pre` on an object that started
with tolerance `t`, cap `m` and no call made. -/
theorem gradient_max_abs_val_result_after_calls {T : Type} (abs : T → T) (max : T → α)
    (v : Bool) (t : α) (m : Nat) (c : Option α) (pre : List (T × α × T)) (x : T) (f : α)
    (d : T) :
    (should_continue_search abs max
        (calls abs max
          { _verbose := v, _min_gradient_abs_val := t, _max_iter := m, _cur_iter := 0,
            _current_gradient_max_abs_val := c } pre).2 x f d).result = false ↔
      (m ≠ 0 ∧ pre.length + 1 > m) ∨ max (abs d) < t := by
  rw [gradient_max_abs_val_result_eq_false_iff, gradient_max_abs_val_calls_cur_iter,
    gradient_max_abs_val_calls_max_iter, gradient_max_abs_val_calls_tolerance]
  simp

end gradient_max_abs_val

/-! ## Facts about the tolerance and the cap of a used object -/

section perform_facts

variable {α : Type} [LinearOrderedField α]

theorem objective_delta_perform_min_delta {T : Type} (sub : α → α → α)
    (s : objective_delta_stop_strategy α) (ops : List (member_call T α)) :
    (objective_delta_stop_strategy.perform sub s ops)._min_delta = s._min_delta := by
  induction ops generalizing s with
  | nil => rfl
  | cons op rest ih =>
    cases op with
    | should_continue_search x f g =>
      simp only [objective_delta_stop_strategy.perform, ih, objective_delta_min_delta_step]
    | be_verbose =>
      simp only [objective_delta_stop_strategy.perform, ih,
        objective_delta_stop_strategy.be_verbose]

theorem objective_delta_perform_max_iter {T : Type} (sub : α → α → α)
    (s : objective_delta_stop_strategy α) (ops : List (member_call T α)) :
    (objective_delta_stop_strategy.perform sub s ops)._max_iter = s._max_iter := by
  induction ops generalizing s with
  | nil => rfl
  | cons op rest ih =>
    cases op with
    | should_continue_search x f g =>
      simp only [objective_delta_stop_strategy.perform, ih, objective_delta_max_iter_step]
    | be_verbose =>
      simp only [objective_delta_stop_strategy.perform, ih,
        objective_delta_stop_strategy.be_verbose]

theorem gradient_norm_perform_min_norm {T : Type} (length : T → α)
    (s : gradient_norm_stop_strategy α) (ops : List (member_call T α)) :
    (gradient_norm_stop_strategy.perform length s ops)._min_norm = s._min_norm := by
  induction ops generalizing s with
  | nil => rfl
  | cons op rest ih =>
    cases op with
    | should_continue_search x f d =>
      simp only [gradient_norm_stop_strategy.perform, ih, gradient_norm_min_norm_step]
    | be_verbose =>
      simp only [gradient_norm_stop_strategy.perform, ih,
        gradient_norm_stop_strategy.be_verbose]

theorem gradient_norm_perform_max_iter {T : Type} (length : T → α)
    (s : gradient_norm_stop_strategy α) (ops : List (member_call T α)) :
    (gradient_norm_stop_strategy.perform length s ops)._max_iter = s._max_iter := by
  induction ops generalizing s with
  | nil => rfl
  | cons op rest ih =>
    cases op with
    | should_continue_search x f d =>
      simp only [gradient_norm_stop_strategy.perform, ih, gradient_norm_max_iter_step]
    | be_verbose =>
      simp only [gradient_norm_stop_strategy.perform, ih,
        gradient_norm_stop_strategy.be_verbose]

theorem gradient_max_abs_val_perform_tolerance {T : Type} (abs : T → T) (max : T → α)
    (s : gradient_max_abs_val_stop_strategy α) (ops : List (member_call T α)) :
    (gradient_max_abs_val_stop_strategy.perform abs max s ops)._min_gradient_abs_val =
      s._min_gradient_abs_val := by
  induction ops generalizing s with
  | nil => rfl
  | cons op rest ih =>
    cases op with
    | should_continue_search x f d =>
      simp only [gradient_max_abs_val_stop_strategy.perform, ih,
        gradient_max_abs_val_tolerance_step]
    | be_verbose =>
      simp only [gradient_max_abs_val_stop_strategy.perform, ih,
        gradient_max_abs_val_stop_strategy.be_verbose]

theorem gradient_max_abs_val_perform_max_iter {T : Type} (abs : T → T) (max : T → α)
    (s : gradient_max_abs_val_stop_strategy α) (ops : List (member_call T α)) :
    (gradient_max_abs_val_stop_strategy.perform abs max s ops)._max_iter = s._max_iter := by
  induction ops generalizing s with
  | nil => rfl
  | cons op rest ih =>
    cases op with
    | should_continue_search x f d =>
      simp only [gradient_max_abs_val_stop_strategy.perform, ih,
        gradient_max_abs_val_max_iter_step]
    | be_verbose =>
      simp only [gradient_max_abs_val_stop_strategy.perform, ih,
        gradient_max_abs_val_stop_strategy.be_verbose]

end perform_facts

/-! ## Facts about the matrix functions -/

section matrix_facts

variable {α : Type} [LinearOrderedField α]

theorem matrix_max_foldl_ge (l : List α) (v : α) :
    v ≤ l.foldl (fun val temp => if temp > val then temp else val) v ∧
      ∀ y ∈ l, y ≤ l.foldl (fun val temp => if temp > val then temp else val) v := by
  induction l generalizing v with
  | nil => simp
  | cons a rest ih =>
    simp only [List.foldl_cons, List.mem_cons, forall_eq_or_imp]
    have h := ih (if a > v then a else v)
    refine ⟨le_trans ?_ h.1, le_trans ?_ h.1, h.2⟩
    · split_ifs with hav
      · exact le_of_lt hav
      · exact le_refl v
    · split_ifs with hav
      · exact le_refl a
      · exact not_lt.mp hav

theorem matrix_max_foldl_mem (l : List α) (v : α) :
    l.foldl (fun val temp => if temp > val then temp else val) v = v ∨
      l.foldl (fun val temp => if temp > val then temp else val) v ∈ l := by
  induction l generalizing v with
  | nil => simp
  | cons a rest ih =>
    simp only [List.foldl_cons, List.mem_cons]
    rcases ih (if a > v then a else v) with h | h
    · rw [h]
      split_ifs
      · exact Or.inr (Or.inl rfl)
      · exact Or.inl rfl
    · exact Or.inr (Or.inr h)

/-- On a non-empty vector `matrix_max` is the greatest component. -/
theorem matrix_max_isGreatest (d : List α) (hd : d ≠ []) :
    IsGreatest {y | y ∈ d} (matrix_max d) := by
  cases d with
  | nil => exact absurd rfl hd
  | cons x rest =>
    constructor
    · show matrix_max (x :: rest) ∈ x :: rest
      rcases matrix_max_foldl_mem rest x with h | h
      · simp [matrix_max, h]
      · simp [matrix_max, h]
    · intro y hy
      have hy2 : y ∈ x :: rest := hy
      rcases List.mem_cons.mp hy2 with h | h
      · rw [h]
        exact (matrix_max_foldl_ge rest x).1
      · exact (matrix_max_foldl_ge rest x).2 y h

/-- On a non-empty vector `matrix_max (matrix_abs d)` is the greatest of the
absolute values of the components. -/
theorem matrix_max_abs_isGreatest (d : List α) (hd : d ≠ []) :
    IsGreatest {y | ∃ x ∈ d, y = |x|} (matrix_max (matrix_abs d)) := by
  have h := matrix_max_isGreatest (matrix_abs d) (by simpa [matrix_abs] using hd)
  have hset : {y | y ∈ matrix_abs d} = {y | ∃ x ∈ d, y = |x|} := by
    ext y
    simp [matrix_abs, eq_comm]
  rwa [hset] at h

end matrix_facts

theorem matrix_length_sum_sq (d : List ℝ) :
    (d.map (fun x => x * x)).sum = ∑ i : Fin d.length, ‖d.get i‖ ^ 2 := by
  conv_lhs => rw [← List.ofFn_get d]
  rw [List.map_ofFn, List.sum_ofFn]
  apply Finset.sum_congr rfl
  intro i _
  simp [Real.norm_eq_abs, sq_abs, sq]

/-- Over the reals `matrix_length` is the norm of Euclidean space. -/
theorem matrix_length_eq_euclidean_norm (d : List ℝ) :
    matrix_length Real.sqrt d =
      ‖(WithLp.equiv 2 (Fin d.length → ℝ)).symm (fun i => d.get i)‖ := by
  rw [EuclideanSpace.norm_eq]
  simp only [matrix_length, matrix_length_sum_sq]
  rfl

theorem matrix_length_sum_sq_nonneg (d : List ℝ) : 0 ≤ (d.map (fun x => x * x)).sum := by
  induction d with
  | nil => simp
  | cons a rest ih =>
    simp only [List.map_cons, List.sum_cons]
    exact add_nonneg (mul_self_nonneg a) ih

theorem matrix_length_sq_le_sum_sq (d : List ℝ) (x : ℝ) (hx : x ∈ d) :
    x * x ≤ (d.map (fun x => x * x)).sum := by
  induction d with
  | nil => simp at hx
  | cons a rest ih =>
    simp only [List.map_cons, List.sum_cons]
    rcases List.mem_cons.mp hx with h | h
    · rw [h]
      exact le_add_of_nonneg_right (matrix_length_sum_sq_nonneg rest)
    · exact le_trans (ih h) (le_add_of_nonneg_left (mul_self_nonneg a))

/-- The greatest absolute component of a non-empty real vector is at most its
Euclidean norm. -/
theorem matrix_max_abs_le_matrix_length (d : List ℝ) (hd : d ≠ []) :
    matrix_max (matrix_abs d) ≤ matrix_length Real.sqrt d := by
  obtain ⟨x, hx, hmax⟩ := (matrix_max_abs_isGreatest d hd).1
  rw [hmax, ← Real.sqrt_mul_self_eq_abs]
  exact Real.sqrt_le_sqrt (matrix_length_sq_le_sum_sq d x hx)

theorem matrix_length_three_four : matrix_length Real.sqrt [3, 4] = 5 := by
  have h : ((3 : ℝ) * 3 + 4 * 4) = 5 * 5 := by norm_num
  simp only [matrix_length, List.map_cons, List.map_nil, List.sum_cons, List.sum_nil, add_zero]
  rw [h, Real.sqrt_mul_self (by norm_num)]

/-! ## The properties of the specification -/

section properties

variable {α : Type} [LinearOrderedField α]

/-- C1 (as stated, refuted): `objective_delta_stop_strategy(0.01, 2)` is
constructed, and three calls with the objective values `0, 0, 0` return
`true, false, false`, not `true, true, false`: the second call already stops
because the objective changed by less than `min_delta`. -/
theorem C1_objective_delta_cap_two_equal_values :
    objective_delta_stop_strategy.create_max_iter (0.01 : ℚ) 2 =
        some (objective_delta_stop_strategy.init_max_iter 0.01 2) ∧
      (objective_delta_stop_strategy.calls binary64_sub
        (objective_delta_stop_strategy.init_max_iter (0.01 : ℚ) 2)
        [(([0] : List ℚ), 0, [0]), ([0], 0, [0]), ([0], 0, [0])]).1 = [true, false, false] := by
  constructor
  · rw [objective_delta_create_max_iter_eq_some_iff]
    exact ⟨⟨by norm_num, by norm_num⟩, rfl⟩
  · apply objective_delta_three_calls_cap_two_of_lt
    rw [binary64_sub_self]
    norm_num

/-- C1 (amended): `objective_delta_stop_strategy(0.01, 2)` is constructed, and
of three consecutive calls with any objective values `v1, v2, v3` the first
returns `true`, the third returns `false` whatever the values are (the
iteration cap), and the second returns `true` exactly when `|d| >= 0.01` for
the difference `d = sub v2 v1` that the subtraction of `double` computes from
`v2` and `v1`; this holds for every subtraction `sub`, rounding or not. -/
theorem C1_objective_delta_cap_two_three_calls {T : Type} (sub : α → α → α)
    (x1 x2 x3 g1 g2 g3 : T) (v1 v2 v3 : α) :
    objective_delta_stop_strategy.create_max_iter (0.01 : α) 2 =
        some (objective_delta_stop_strategy.init_max_iter 0.01 2) ∧
      ∃ r2 : Bool,
        (objective_delta_stop_strategy.calls sub
          (objective_delta_stop_strategy.init_max_iter (0.01 : α) 2)
          [(x1, v1, g1), (x2, v2, g2), (x3, v3, g3)]).1 = [true, r2, false] ∧
        (r2 = true ↔ 0.01 ≤ |sub v2 v1|) := by
  constructor
  · rw [objective_delta_create_max_iter_eq_some_iff]
    exact ⟨⟨by norm_num, by norm_num⟩, rfl⟩
  · refine ⟨!decide (|sub v2 v1| < 0.01), ?_, ?_⟩
    · exact objective_delta_three_calls_cap_two sub 0.01 x1 x2 x3 g1 g2 g3 v1 v2 v3
    · by_cases h : |sub v2 v1| < 0.01
      · simp only [decide_eq_true h, Bool.not_true, Bool.false_eq_true, false_iff, not_le]
        exact h
      · simp only [decide_eq_false h, Bool.not_false, true_iff]
        exact not_lt.mp h

/-- C2: for every tolerance `t >= 0` both constructors of
`objective_delta_stop_strategy` succeed (the two-argument one for every cap
`m >= 1`), and the first call of `should_continue_search` on the new object
returns `true` for every objective value. -/
theorem C2_objective_delta_first_call_continues {T : Type} (sub : α → α → α) (t : α)
    (ht : 0 ≤ t) :
    (∃ s, objective_delta_stop_strategy.create t = some s ∧
        ∀ (x : T) (f : α) (g : T),
          (objective_delta_stop_strategy.should_continue_search sub s x f g).result = true) ∧
      ∀ m : Nat, 1 ≤ m →
        ∃ s, objective_delta_stop_strategy.create_max_iter t m = some s ∧
          ∀ (x : T) (f : α) (g : T),
            (objective_delta_stop_strategy.should_continue_search sub s x f g).result =
              true := by
  constructor
  · refine ⟨objective_delta_stop_strategy.init t, ?_, ?_⟩
    · rw [objective_delta_create_eq_some_iff]
      exact ⟨ht, rfl⟩
    · intro x f g
      simp [objective_delta_stop_strategy.should_continue_search,
        objective_delta_stop_strategy.init]
  · intro m hm
    refine ⟨objective_delta_stop_strategy.init_max_iter t m, ?_, ?_⟩
    · rw [objective_delta_create_max_iter_eq_some_iff]
      exact ⟨⟨ht, hm⟩, rfl⟩
    · intro x f g
      simp [objective_delta_stop_strategy.should_continue_search,
        objective_delta_stop_strategy.init_max_iter]

/-- Witness of C2 at tolerance `0.01`, with vectors of rationals as `T` and the
binary64 subtraction. -/
theorem C2_objective_delta_first_call_continues_witness :
    (0 : ℚ) ≤ 0.01 ∧
      ((∃ s, objective_delta_stop_strategy.create (0.01 : ℚ) = some s ∧
          ∀ (x : List ℚ) (f : ℚ) (g : List ℚ),
            (objective_delta_stop_strategy.should_continue_search binary64_sub
              s x f g).result = true) ∧
        ∀ m : Nat, 1 ≤ m →
          ∃ s, objective_delta_stop_strategy.create_max_iter (0.01 : ℚ) m = some s ∧
            ∀ (x : List ℚ) (f : ℚ) (g : List ℚ),
              (objective_delta_stop_strategy.should_continue_search binary64_sub
                s x f g).result = true) :=
  ⟨by norm_num, C2_objective_delta_first_call_continues binary64_sub (0.01 : ℚ) (by norm_num)⟩

/-- C3 (as stated, refuted): on `objective_delta_stop_strategy(1)` the calls with
the objectives `2^(-60)` and `1`, both binary64 values, return `true, true`
although `|1 - 2^(-60)| < 1`: the code subtracts in `double`, the difference
is rounded to `1`, and `1 < 1` is false. -/
theorem C3_objective_delta_rounded_difference_not_below_tolerance :
    objective_delta_stop_strategy.create (1 : ℚ) =
        some (objective_delta_stop_strategy.init 1) ∧
      |(1 : ℚ) - 2 ^ (-60 : Int)| < 1 ∧
      binary64_sub (1 : ℚ) (2 ^ (-60 : Int)) = 1 ∧
      (objective_delta_stop_strategy.calls binary64_sub
        (objective_delta_stop_strategy.init (1 : ℚ))
        [(([1] : List ℚ), 2 ^ (-60 : Int), [2]), ([1], 1, [2])]).1 = [true, true] := by
  refine ⟨?_, ?_, binary64_sub_one_two_pow_neg_sixty, ?_⟩
  · rw [objective_delta_create_eq_some_iff]
    exact ⟨by norm_num, rfl⟩
  · rw [abs_lt]
    constructor <;> norm_num
  · apply objective_delta_two_calls_of_not_lt
    rw [binary64_sub_one_two_pow_neg_sixty]
    norm_num

/-- C3 (amended): for every tolerance `t >= 0` the uncapped
`objective_delta_stop_strategy(t)` is constructed, its first call (objective
`f1`) returns `true`, and its second call (objective `f2`) returns `false` if
and only if `|d| < t` for the difference `d = sub f2 f1` that the subtraction
of `double` computes, whatever that subtraction is.  For the binary64
subtraction and a binary64 tolerance, a second call that returns `false` has
`|f2 - f1| < t` for the exact difference too; and with `t = 0.01` the
objective values `10.0, 9.9999` give `true, false` and `10.0, 5.0` give
`true, true`. -/
theorem C3_objective_delta_second_call {T : Type} (sub : α → α → α) (t : α) (ht : 0 ≤ t)
    (x1 x2 g1 g2 : T) (f1 f2 : α) (y1 y2 h1 h2 : List ℚ) :
    (∃ s r2, objective_delta_stop_strategy.create t = some s ∧
        (objective_delta_stop_strategy.calls sub s [(x1, f1, g1), (x2, f2, g2)]).1 =
          [true, r2] ∧
        (r2 = false ↔ |sub f2 f1| < t)) ∧
      (∀ tol a b : ℚ, 0 ≤ tol → binary64_round tol = tol →
        (objective_delta_stop_strategy.calls binary64_sub
          (objective_delta_stop_strategy.init tol) [(y1, a, h1), (y2, b, h2)]).1 =
            [true, false] →
        |b - a| < tol) ∧
      (∃ s, objective_delta_stop_strategy.create (0.01 : ℚ) = some s ∧
        (objective_delta_stop_strategy.calls binary64_sub s
          [(y1, 10.0, h1), (y2, 9.9999, h2)]).1 = [true, false] ∧
        (objective_delta_stop_strategy.calls binary64_sub s
          [(y1, 10.0, h1), (y2, 5.0, h2)]).1 = [true, true]) := by
  refine ⟨?_, ?_, ?_⟩
  · refine ⟨objective_delta_stop_strategy.init t, !decide (|sub f2 f1| < t), ?_, ?_, ?_⟩
    · rw [objective_delta_create_eq_some_iff]
      exact ⟨ht, rfl⟩
    · exact objective_delta_two_calls sub t x1 x2 g1 g2 f1 f2
    · simp
  · intro tol a b htol hrep hres
    rw [objective_delta_two_calls] at hres
    have hlt : |binary64_sub b a| < tol := by
      by_contra hnot
      rw [decide_eq_false hnot] at hres
      simp at hres
    exact binary64_sub_abs_lt tol b a htol hrep hlt
  · refine ⟨objective_delta_stop_strategy.init 0.01, ?_, ?_, ?_⟩
    · rw [objective_delta_create_eq_some_iff]
      exact ⟨by norm_num, rfl⟩
    · exact objective_delta_two_calls_of_lt _ _ _ _ _ _ _ _
        binary64_sub_abs_lt_of_objectives
    · apply objective_delta_two_calls_of_not_lt
      rw [binary64_sub_five_ten]
      norm_num

/-- Witness of C3 (amended) at tolerance `0.01`, the binary64 subtraction and
the objective values `10.0, 9.9999`. -/
theorem C3_objective_delta_second_call_witness :
    (0 : ℚ) ≤ 0.01 ∧
      ∃ s r2, objective_delta_stop_strategy.create (0.01 : ℚ) = some s ∧
        (objective_delta_stop_strategy.calls binary64_sub s
          [(([1] : List ℚ), 10.0, [2]), ([1], 9.9999, [2])]).1 = [true, r2] ∧
        (r2 = false ↔ |binary64_sub (9.9999 : ℚ) 10.0| < 0.01) :=
  ⟨by norm_num,
    (C3_objective_delta_second_call binary64_sub (0.01 : ℚ) (by norm_num) [1] [1] [2] [2]
      10.0 9.9999 [1] [1] [2] [2]).1⟩

/-- C4 (with `length` modelled from the spec as `matrix_length`): for
`gradient_norm_stop_strategy` with tolerance `t` and cap `m`, after any `k`
calls (the list `pre`), the next call returns `false` if and only if
`(m != 0 and k + 1 > m)` or `length(d) < t`, for every function `length`; on
real vectors `matrix_length` is `sqrt(sum d_i^2)`, the Euclidean norm, and the
norm of `[3, 4]` is `5`; with `t = 1e-3` and no cap, after any calls, a
derivative `d1` of norm `0.0005` gives `false` and a derivative `d2` of norm
`0.01` gives `true`. -/
theorem C4_gradient_norm_decision (d1 d2 : List ℝ)
    (h1 : matrix_length Real.sqrt d1 = 0.0005) (h2 : matrix_length Real.sqrt d2 = 0.01) :
    (∀ (T : Type) (length : T → α) (v : Bool) (t : α) (m : Nat) (c : Option α)
        (pre : List (T × α × T)) (x : T) (f : α) (d : T),
        (gradient_norm_stop_strategy.should_continue_search length
          (gradient_norm_stop_strategy.calls length
            { _verbose := v, _min_norm := t, _max_iter := m, _cur_iter := 0,
              _current_gradient_norm := c } pre).2 x f d).result = false ↔
          (m ≠ 0 ∧ pre.length + 1 > m) ∨ length d < t) ∧
      (∀ d : List ℝ,
        matrix_length Real.sqrt d = Real.sqrt (d.map (fun c => c ^ 2)).sum ∧
        matrix_length Real.sqrt d =
          ‖(WithLp.equiv 2 (Fin d.length → ℝ)).symm (fun i => d.get i)‖) ∧
      matrix_length Real.sqrt [3, 4] = 5 ∧
      gradient_norm_stop_strategy.create (0.001 : ℝ) =
        some (gradient_norm_stop_strategy.init 0.001) ∧
      ∀ (pre : List (List ℝ × ℝ × List ℝ)) (x : List ℝ) (f : ℝ),
        (gradient_norm_stop_strategy.should_continue_search (matrix_length Real.sqrt)
          (gradient_norm_stop_strategy.calls (matrix_length Real.sqrt)
            (gradient_norm_stop_strategy.init 0.001) pre).2 x f d1).result = false ∧
        (gradient_norm_stop_strategy.should_continue_search (matrix_length Real.sqrt)
          (gradient_norm_stop_strategy.calls (matrix_length Real.sqrt)
            (gradient_norm_stop_strategy.init 0.001) pre).2 x f d2).result = true := by
  refine ⟨?_, ?_, matrix_length_three_four, ?_, ?_⟩
  · intro T length v t m c pre x f d
    exact gradient_norm_result_after_calls length v t m c pre x f d
  · intro d
    refine ⟨?_, matrix_length_eq_euclidean_norm d⟩
    simp only [matrix_length, sq]
  · rw [gradient_norm_create_eq_some_iff]
    exact ⟨by norm_num, rfl⟩
  · intro pre x f
    constructor
    · unfold gradient_norm_stop_strategy.init
      rw [gradient_norm_result_after_calls, h1]
      right
      norm_num
    · rw [← Bool.not_eq_false]
      unfold gradient_norm_stop_strategy.init
      rw [gradient_norm_result_after_calls, h2]
      norm_num

/-- Witness of C4 at the derivatives `[0.0003, 0.0004]`, of norm `0.0005`, and
`[0.006, 0.008]`, of norm `0.01`. -/
theorem C4_gradient_norm_decision_witness :
    matrix_length Real.sqrt [0.0003, 0.0004] = 0.0005 ∧
      matrix_length Real.sqrt [0.006, 0.008] = 0.01 ∧
      ∀ (pre : List (List ℝ × ℝ × List ℝ)) (x : List ℝ) (f : ℝ),
        (gradient_norm_stop_strategy.should_continue_search (matrix_length Real.sqrt)
          (gradient_norm_stop_strategy.calls (matrix_length Real.sqrt)
            (gradient_norm_stop_strategy.init 0.001) pre).2 x f [0.0003, 0.0004]).result
            = false ∧
        (gradient_norm_stop_strategy.should_continue_search (matrix_length Real.sqrt)
          (gradient_norm_stop_strategy.calls (matrix_length Real.sqrt)
            (gradient_norm_stop_strategy.init 0.001) pre).2 x f [0.006, 0.008]).result
            = true := by
  have h1 : matrix_length Real.sqrt [0.0003, 0.0004] = 0.0005 := by
    have h : ((0.0003 : ℝ) * 0.0003 + 0.0004 * 0.0004) = 0.0005 * 0.0005 := by norm_num
    simp only [matrix_length, List.map_cons, List.map_nil, List.sum_cons, List.sum_nil,
      add_zero]
    rw [h, Real.sqrt_mul_self (by norm_num)]
  have h2 : matrix_length Real.sqrt [0.006, 0.008] = 0.01 := by
    have h : ((0.006 : ℝ) * 0.006 + 0.008 * 0.008) = 0.01 * 0.01 := by norm_num
    simp only [matrix_length, List.map_cons, List.map_nil, List.sum_cons, List.sum_nil,
      add_zero]
    rw [h, Real.sqrt_mul_self (by norm_num)]
  exact ⟨h1, h2, (@C4_gradient_norm_decision ℝ _ _ _ h1 h2).2.2.2.2⟩

/-- C5 (with `abs` and `max` modelled from the spec as `matrix_abs` and
`matrix_max`): for `gradient_max_abs_val_stop_strategy` with tolerance `t` and
cap `m`, after any `k` calls (the list `pre`), the next call returns `false` if
and only if `(m != 0 and k + 1 > m)` or `max(abs(d)) < t`, for all functions
`abs` and `max`; for a non-empty vector `d`, `matrix_max (matrix_abs d)` is the
greatest of the `|d_i|`; with `t = 1e-4` and no cap, after any calls, the
derivative `[0.00001, -0.5, 0.2]` gives `true` and `[0.00001, -0.00002]` gives
`false`. -/
theorem C5_gradient_max_abs_val_decision (d : List α) (hd : d ≠ []) :
    (∀ (T : Type) (abs : T → T) (max : T → α) (v : Bool) (t : α) (m : Nat) (c : Option α)
        (pre : List (T × α × T)) (x : T) (f : α) (d : T),
        (gradient_max_abs_val_stop_strategy.should_continue_search abs max
          (gradient_max_abs_val_stop_strategy.calls abs max
            { _verbose := v, _min_gradient_abs_val := t, _max_iter := m, _cur_iter := 0,
              _current_gradient_max_abs_val := c } pre).2 x f d).result = false ↔
          (m ≠ 0 ∧ pre.length + 1 > m) ∨ max (abs d) < t) ∧
      IsGreatest {y | ∃ c ∈ d, y = |c|} (matrix_max (matrix_abs d)) ∧
      (∀ min_norm : ℚ, 0 ≤ min_norm →
        gradient_max_abs_val_stop_strategy.create min_norm (0.0001 : ℚ) =
          some (gradient_max_abs_val_stop_strategy.init 0.0001)) ∧
      ∀ (pre : List (List ℚ × ℚ × List ℚ)) (x : List ℚ) (f : ℚ),
        (gradient_max_abs_val_stop_strategy.should_continue_search matrix_abs matrix_max
          (gradient_max_abs_val_stop_strategy.calls matrix_abs matrix_max
            (gradient_max_abs_val_stop_strategy.init 0.0001) pre).2 x f
            [0.00001, -0.5, 0.2]).result = true ∧
        (gradient_max_abs_val_stop_strategy.should_continue_search matrix_abs matrix_max
          (gradient_max_abs_val_stop_strategy.calls matrix_abs matrix_max
            (gradient_max_abs_val_stop_strategy.init 0.0001) pre).2 x f
            [0.00001, -0.00002]).result = false := by
  refine ⟨?_, matrix_max_abs_isGreatest d hd, ?_, ?_⟩
  · intro T abs max v t m c pre x f d
    exact gradient_max_abs_val_result_after_calls abs max v t m c pre x f d
  · intro min_norm h
    rw [gradient_max_abs_val_create_eq_some_iff]
    exact ⟨h, rfl⟩
  · intro pre x f
    have e1 : matrix_max (matrix_abs [(0.00001 : ℚ), -0.5, 0.2]) = 0.5 := by
      norm_num [matrix_max, matrix_abs, abs_of_nonneg]
    have e2 : matrix_max (matrix_abs [(0.00001 : ℚ), -0.00002]) = 0.00002 := by
      norm_num [matrix_max, matrix_abs, abs_of_nonneg]
    constructor
    · rw [← Bool.not_eq_false]
      unfold gradient_max_abs_val_stop_strategy.init
      rw [gradient_max_abs_val_result_after_calls, e1]
      norm_num
    · unfold gradient_max_abs_val_stop_strategy.init
      rw [gradient_max_abs_val_result_after_calls, e2]
      right
      norm_num

/-- Witness of C5 at the non-empty vector `[0.00001, -0.5, 0.2]`, whose greatest
absolute component is `0.5`. -/
theorem C5_gradient_max_abs_val_decision_witness :
    ([0.00001, -0.5, 0.2] : List ℚ) ≠ [] ∧
      IsGreatest {y | ∃ c ∈ ([0.00001, -0.5, 0.2] : List ℚ), y = |c|}
        (matrix_max (matrix_abs [(0.00001 : ℚ), -0.5, 0.2])) :=
  ⟨by simp, (C5_gradient_max_abs_val_decision [(0.00001 : ℚ), -0.5, 0.2] (by simp)).2.1⟩

/-- C6: for each of the three strategies built by the two-argument constructor
with a cap `m > 0`: every call made after `m` or more earlier calls returns
`false` whatever its arguments are, so at most `m` calls of any sequence
return `true`; and the `m`-th call is decided by the convergence criterion
alone (for `objective_delta_stop_strategy` it returns `false` exactly when it
is not the first call and the change of the objective, as the subtraction
`sub` of `double` computes it, is below the tolerance in absolute value; for
the gradient strategies exactly when the gradient measure is below the
tolerance). -/
theorem C6_iteration_cap {T : Type} (sub : α → α → α) (length : T → α) (abs : T → T) (max : T → α)
    (t min_norm : α) (m : Nat) (ht : 0 ≤ t) (hmn : 0 ≤ min_norm) (hm : 0 < m) :
    (∃ s, objective_delta_stop_strategy.create_max_iter t m = some s ∧
      (∀ (pre : List (T × α × T)) (x : T) (f : α) (g : T), m ≤ pre.length →
        (objective_delta_stop_strategy.should_continue_search sub
          (objective_delta_stop_strategy.calls sub s pre).2 x f g).result = false) ∧
      (∀ inputs : List (T × α × T),
        (objective_delta_stop_strategy.calls sub s inputs).1.count true ≤ m) ∧
      (∀ (pre : List (T × α × T)) (x : T) (f : α) (g : T), pre.length + 1 = m →
        ((objective_delta_stop_strategy.should_continue_search sub
            (objective_delta_stop_strategy.calls sub s pre).2 x f g).result = false ↔
          pre ≠ [] ∧
            |sub f (objective_delta_stop_strategy.calls sub s pre).2._prev_funct_value| < t))) ∧
    (∃ s, gradient_norm_stop_strategy.create_max_iter t m = some s ∧
      (∀ (pre : List (T × α × T)) (x : T) (f : α) (d : T), m ≤ pre.length →
        (gradient_norm_stop_strategy.should_continue_search length
          (gradient_norm_stop_strategy.calls length s pre).2 x f d).result = false) ∧
      (∀ inputs : List (T × α × T),
        (gradient_norm_stop_strategy.calls length s inputs).1.count true ≤ m) ∧
      (∀ (pre : List (T × α × T)) (x : T) (f : α) (d : T), pre.length + 1 = m →
        ((gradient_norm_stop_strategy.should_continue_search length
            (gradient_norm_stop_strategy.calls length s pre).2 x f d).result = false ↔
          length d < t))) ∧
    (∃ s, gradient_max_abs_val_stop_strategy.create_max_iter min_norm t m = some s ∧
      (∀ (pre : List (T × α × T)) (x : T) (f : α) (d : T), m ≤ pre.length →
        (gradient_max_abs_val_stop_strategy.should_continue_search abs max
          (gradient_max_abs_val_stop_strategy.calls abs max s pre).2 x f d).result = false) ∧
      (∀ inputs : List (T × α × T),
        (gradient_max_abs_val_stop_strategy.calls abs max s inputs).1.count true ≤ m) ∧
      (∀ (pre : List (T × α × T)) (x : T) (f : α) (d : T), pre.length + 1 = m →
        ((gradient_max_abs_val_stop_strategy.should_continue_search abs max
            (gradient_max_abs_val_stop_strategy.calls abs max s pre).2 x f d).result = false ↔
          max (abs d) < t))) := by
  have hm0 : m ≠ 0 := Nat.pos_iff_ne_zero.mp hm
  refine ⟨⟨objective_delta_stop_strategy.init_max_iter t m, ?_, ?_, ?_, ?_⟩,
    ⟨gradient_norm_stop_strategy.init_max_iter t m, ?_, ?_, ?_, ?_⟩,
    ⟨gradient_max_abs_val_stop_strategy.init_max_iter t m, ?_, ?_, ?_, ?_⟩⟩
  · rw [objective_delta_create_max_iter_eq_some_iff]
    exact ⟨⟨ht, hm⟩, rfl⟩
  · intro pre x f g hpre
    rw [objective_delta_result_after_calls]
    have hne : pre ≠ [] := by
      intro h
      rw [h] at hpre
      simp at hpre
      omega
    refine ⟨Or.inr hne, Or.inl ⟨hm0, ?_⟩⟩
    simp only [objective_delta_stop_strategy.init_max_iter]
    omega
  · intro inputs
    refine le_trans (call_sequence_count_le _ _ m ?_ inputs) (min_le_right _ _)
    intro pre i hpre
    have h := objective_delta_result_after_calls sub
      (objective_delta_stop_strategy.init_max_iter t m) pre i.1 i.2.1 i.2.2
    have hne : pre ≠ [] := by
      intro h
      rw [h] at hpre
      simp at hpre
      omega
    refine h.mpr ⟨Or.inr hne, Or.inl ⟨hm0, ?_⟩⟩
    simp only [objective_delta_stop_strategy.init_max_iter]
    omega
  · intro pre x f g hpre
    rw [objective_delta_result_after_calls]
    simp only [objective_delta_stop_strategy.init_max_iter]
    constructor
    · rintro ⟨h1, h2⟩
      refine ⟨by simpa using h1, ?_⟩
      rcases h2 with h2 | h2
      · omega
      · exact h2
    · rintro ⟨h1, h2⟩
      exact ⟨Or.inr h1, Or.inr h2⟩
  · rw [gradient_norm_create_max_iter_eq_some_iff]
    exact ⟨⟨ht, hm⟩, rfl⟩
  · intro pre x f d hpre
    unfold gradient_norm_stop_strategy.init_max_iter
    rw [gradient_norm_result_after_calls]
    exact Or.inl ⟨hm0, by omega⟩
  · intro inputs
    refine le_trans (call_sequence_count_le _ _ m ?_ inputs) (min_le_right _ _)
    intro pre i hpre
    exact (gradient_norm_result_after_calls length false t m none pre i.1 i.2.1 i.2.2).mpr
      (Or.inl ⟨hm0, by omega⟩)
  · intro pre x f d hpre
    unfold gradient_norm_stop_strategy.init_max_iter
    rw [gradient_norm_result_after_calls]
    constructor
    · rintro (h | h)
      · omega
      · exact h
    · exact Or.inr
  · rw [gradient_max_abs_val_create_max_iter_eq_some_iff]
    exact ⟨⟨hmn, hm⟩, rfl⟩
  · intro pre x f d hpre
    unfold gradient_max_abs_val_stop_strategy.init_max_iter
    rw [gradient_max_abs_val_result_after_calls]
    exact Or.inl ⟨hm0, by omega⟩
  · intro inputs
    refine le_trans (call_sequence_count_le _ _ m ?_ inputs) (min_le_right _ _)
    intro pre i hpre
    exact (gradient_max_abs_val_result_after_calls abs max false t m none pre
      i.1 i.2.1 i.2.2).mpr (Or.inl ⟨hm0, by omega⟩)
  · intro pre x f d hpre
    unfold gradient_max_abs_val_stop_strategy.init_max_iter
    rw [gradient_max_abs_val_result_after_calls]
    constructor
    · rintro (h | h)
      · omega
      · exact h
    · exact Or.inr

/-- Witness of C6 over the reals with cap `2`, tolerance `0.001` and the list
matrix functions: the `objective_delta_stop_strategy` part. -/
theorem C6_iteration_cap_witness :
    (0 : ℝ) ≤ 0.001 ∧ (0 : ℝ) ≤ 1 ∧ 0 < 2 ∧
      ∃ s, objective_delta_stop_strategy.create_max_iter (0.001 : ℝ) 2 = some s ∧
        (∀ (pre : List (List ℝ × ℝ × List ℝ)) (x : List ℝ) (f : ℝ) (g : List ℝ),
          2 ≤ pre.length →
          (objective_delta_stop_strategy.should_continue_search binary64_sub
            (objective_delta_stop_strategy.calls binary64_sub s pre).2 x f g).result = false) ∧
        (∀ inputs : List (List ℝ × ℝ × List ℝ),
          (objective_delta_stop_strategy.calls binary64_sub s inputs).1.count true ≤ 2) ∧
        (∀ (pre : List (List ℝ × ℝ × List ℝ)) (x : List ℝ) (f : ℝ) (g : List ℝ),
          pre.length + 1 = 2 →
          ((objective_delta_stop_strategy.should_continue_search binary64_sub
              (objective_delta_stop_strategy.calls binary64_sub s pre).2 x f g).result = false ↔
            pre ≠ [] ∧
              |binary64_sub f (objective_delta_stop_strategy.calls binary64_sub s pre).2._prev_funct_value| <
                0.001)) :=
  ⟨by norm_num, by norm_num, by norm_num,
    (C6_iteration_cap binary64_sub (matrix_length Real.sqrt) matrix_abs matrix_max
      (0.001 : ℝ) 1 2
      (by norm_num) (by norm_num) (by norm_num)).1⟩

/-- C7 (as stated, refuted): after `2^31 = 2147483648` calls on a new
`objective_delta_stop_strategy(0)` the accessor `current_iteration()` returns
`-2147483648`, not the number of calls: it converts the counter to `int`. -/
theorem C7_current_iteration_after_two_pow_31_calls :
    objective_delta_stop_strategy.create (0 : ℚ) =
        some (objective_delta_stop_strategy.init 0) ∧
      objective_delta_stop_strategy.current_iteration
        (objective_delta_stop_strategy.calls binary64_sub (objective_delta_stop_strategy.init (0 : ℚ))
          (List.replicate 2147483648 (([0] : List ℚ), (0 : ℚ), ([0] : List ℚ)))).2 =
        -2147483648 := by
  constructor
  · rw [objective_delta_create_eq_some_iff]
    exact ⟨le_refl 0, rfl⟩
  · unfold objective_delta_stop_strategy.current_iteration
    rw [objective_delta_calls_cur_iter, List.length_replicate]
    have h : (objective_delta_stop_strategy.init (0 : ℚ))._cur_iter = 0 := rfl
    rw [h]
    unfold static_cast_int
    norm_num

/-- C7 (amended): for each of the three strategies and a new object (the
one-argument constructor gives `init t`, which is `init_max_iter t 0`, the
two-argument one `init_max_iter t m`): after the calls `all`, however many
they are and whatever their arguments and results, the counter `_cur_iter` is
their number `N`, every call increasing it by exactly `1`; and after the
calls `inputs`, as long as their number `N` is below `2^31`,
`current_iteration()` returns exactly `N`, and the last of these calls
increased `current_iteration()` by exactly `1`. -/
theorem C7_current_iteration_counts_calls {T : Type} (sub : α → α → α) (length : T → α)
    (abs : T → T) (max : T → α) (t : α) (m : Nat) (all inputs : List (T × α × T))
    (hN : inputs.length < 2147483648) :
    (objective_delta_stop_strategy.init t = objective_delta_stop_strategy.init_max_iter t 0 ∧
      gradient_norm_stop_strategy.init t = gradient_norm_stop_strategy.init_max_iter t 0 ∧
      gradient_max_abs_val_stop_strategy.init t =
        gradient_max_abs_val_stop_strategy.init_max_iter t 0) ∧
    ((objective_delta_stop_strategy.calls sub
          (objective_delta_stop_strategy.init_max_iter t m) all).2._cur_iter = all.length ∧
      (∀ (s : objective_delta_stop_strategy α) (x : T) (f : α) (g : T),
        (objective_delta_stop_strategy.should_continue_search sub s x f g).self._cur_iter =
          s._cur_iter + 1) ∧
      objective_delta_stop_strategy.current_iteration
          (objective_delta_stop_strategy.calls sub
            (objective_delta_stop_strategy.init_max_iter t m) inputs).2 = inputs.length ∧
      ∀ pre i, inputs = pre ++ [i] →
        objective_delta_stop_strategy.current_iteration
            (objective_delta_stop_strategy.calls sub
              (objective_delta_stop_strategy.init_max_iter t m) inputs).2 =
          objective_delta_stop_strategy.current_iteration
            (objective_delta_stop_strategy.calls sub
              (objective_delta_stop_strategy.init_max_iter t m) pre).2 + 1) ∧
    ((gradient_norm_stop_strategy.calls length
          (gradient_norm_stop_strategy.init_max_iter t m) all).2._cur_iter = all.length ∧
      (∀ (s : gradient_norm_stop_strategy α) (x : T) (f : α) (d : T),
        (gradient_norm_stop_strategy.should_continue_search length s x f d).self._cur_iter =
          s._cur_iter + 1) ∧
      gradient_norm_stop_strategy.current_iteration
          (gradient_norm_stop_strategy.calls length
            (gradient_norm_stop_strategy.init_max_iter t m) inputs).2 = inputs.length ∧
      ∀ pre i, inputs = pre ++ [i] →
        gradient_norm_stop_strategy.current_iteration
            (gradient_norm_stop_strategy.calls length
              (gradient_norm_stop_strategy.init_max_iter t m) inputs).2 =
          gradient_norm_stop_strategy.current_iteration
            (gradient_norm_stop_strategy.calls length
              (gradient_norm_stop_strategy.init_max_iter t m) pre).2 + 1) ∧
    ((gradient_max_abs_val_stop_strategy.calls abs max
          (gradient_max_abs_val_stop_strategy.init_max_iter t m) all).2._cur_iter =
        all.length ∧
      (∀ (s : gradient_max_abs_val_stop_strategy α) (x : T) (f : α) (d : T),
        (gradient_max_abs_val_stop_strategy.should_continue_search abs max
          s x f d).self._cur_iter = s._cur_iter + 1) ∧
      gradient_max_abs_val_stop_strategy.current_iteration
          (gradient_max_abs_val_stop_strategy.calls abs max
            (gradient_max_abs_val_stop_strategy.init_max_iter t m) inputs).2 =
        inputs.length ∧
      ∀ pre i, inputs = pre ++ [i] →
        gradient_max_abs_val_stop_strategy.current_iteration
            (gradient_max_abs_val_stop_strategy.calls abs max
              (gradient_max_abs_val_stop_strategy.init_max_iter t m) inputs).2 =
          gradient_max_abs_val_stop_strategy.current_iteration
            (gradient_max_abs_val_stop_strategy.calls abs max
              (gradient_max_abs_val_stop_strategy.init_max_iter t m) pre).2 + 1) := by
  refine ⟨⟨rfl, rfl, rfl⟩, ⟨?_, ?_, ?_, ?_⟩, ⟨?_, ?_, ?_, ?_⟩, ⟨?_, ?_, ?_, ?_⟩⟩
  · rw [objective_delta_calls_cur_iter]
    simp [objective_delta_stop_strategy.init_max_iter]
  · intro s x f g
    exact objective_delta_cur_iter_step sub s x f g
  · unfold objective_delta_stop_strategy.current_iteration
    rw [objective_delta_calls_cur_iter]
    simp only [objective_delta_stop_strategy.init_max_iter, Nat.zero_add]
    exact static_cast_int_of_lt _ hN
  · intro pre i h
    have hl : pre.length + 1 = inputs.length := by simp [h]
    unfold objective_delta_stop_strategy.current_iteration
    rw [objective_delta_calls_cur_iter, objective_delta_calls_cur_iter]
    simp only [objective_delta_stop_strategy.init_max_iter, Nat.zero_add]
    rw [static_cast_int_of_lt _ hN, static_cast_int_of_lt _ (by omega)]
    omega
  · rw [gradient_norm_calls_cur_iter]
    simp [gradient_norm_stop_strategy.init_max_iter]
  · intro s x f d
    exact gradient_norm_cur_iter_step length s x f d
  · unfold gradient_norm_stop_strategy.current_iteration
    rw [gradient_norm_calls_cur_iter]
    simp only [gradient_norm_stop_strategy.init_max_iter, Nat.zero_add]
    exact static_cast_int_of_lt _ hN
  · intro pre i h
    have hl : pre.length + 1 = inputs.length := by simp [h]
    unfold gradient_norm_stop_strategy.current_iteration
    rw [gradient_norm_calls_cur_iter, gradient_norm_calls_cur_iter]
    simp only [gradient_norm_stop_strategy.init_max_iter, Nat.zero_add]
    rw [static_cast_int_of_lt _ hN, static_cast_int_of_lt _ (by omega)]
    omega
  · rw [gradient_max_abs_val_calls_cur_iter]
    simp [gradient_max_abs_val_stop_strategy.init_max_iter]
  · intro s x f d
    exact gradient_max_abs_val_cur_iter_step abs max s x f d
  · unfold gradient_max_abs_val_stop_strategy.current_iteration
    rw [gradient_max_abs_val_calls_cur_iter]
    simp only [gradient_max_abs_val_stop_strategy.init_max_iter, Nat.zero_add]
    exact static_cast_int_of_lt _ hN
  · intro pre i h
    have hl : pre.length + 1 = inputs.length := by simp [h]
    unfold gradient_max_abs_val_stop_strategy.current_iteration
    rw [gradient_max_abs_val_calls_cur_iter, gradient_max_abs_val_calls_cur_iter]
    simp only [gradient_max_abs_val_stop_strategy.init_max_iter, Nat.zero_add]
    rw [static_cast_int_of_lt _ hN, static_cast_int_of_lt _ (by omega)]
    omega

/-- Witness of C7 (amended) over the reals: after the `2^31` calls of the
refuting sequence the counter of `objective_delta_stop_strategy(0)` is `2^31`,
and after two calls on `gradient_norm_stop_strategy(0.001, 1)`, the second
stopped by the cap, `current_iteration()` is `2`. -/
theorem C7_current_iteration_counts_calls_witness :
    ([([1], 7, [3, 4]), ([1], 6, [3, 4])] : List (List ℝ × ℝ × List ℝ)).length < 2147483648 ∧
      (objective_delta_stop_strategy.calls binary64_sub
        (objective_delta_stop_strategy.init_max_iter (0 : ℝ) 0)
        (List.replicate 2147483648 (([0] : List ℝ), (0 : ℝ), ([0] : List ℝ)))).2._cur_iter =
        (List.replicate 2147483648 (([0] : List ℝ), (0 : ℝ), ([0] : List ℝ))).length ∧
      gradient_norm_stop_strategy.current_iteration
        (gradient_norm_stop_strategy.calls (matrix_length Real.sqrt)
          (gradient_norm_stop_strategy.init_max_iter (0 : ℝ) 0)
          [([1], 7, [3, 4]), ([1], 6, [3, 4])]).2 = 2 :=
  ⟨by simp,
    (C7_current_iteration_counts_calls binary64_sub (matrix_length Real.sqrt) matrix_abs
      matrix_max (0 : ℝ) 0
      (List.replicate 2147483648 (([0] : List ℝ), (0 : ℝ), ([0] : List ℝ)))
      [([1], 7, [3, 4]), ([1], 6, [3, 4])] (by simp)).2.1.1,
    (C7_current_iteration_counts_calls binary64_sub (matrix_length Real.sqrt) matrix_abs
      matrix_max (0 : ℝ) 0
      (List.replicate 2147483648 (([0] : List ℝ), (0 : ℝ), ([0] : List ℝ)))
      [([1], 7, [3, 4]), ([1], 6, [3, 4])] (by simp)).2.2.1.2.2.1⟩

/-- C8 (the code at the failing input): the constructors of
`objective_delta_stop_strategy` and `gradient_norm_stop_strategy` succeed
exactly when the tolerance is `>= 0` (and `max_iter > 0` for the two-argument
form).  The constructors of `gradient_max_abs_val_stop_strategy` assert on
`min_norm`, which is not their tolerance parameter: whether they succeed is the
same for every tolerance, so for no value of `min_norm` does the one-argument
constructor succeed exactly for the tolerances `>= 0`, and with `min_norm = 0`
the tolerance `-1` is accepted by both forms. -/
theorem C8_constructor_checks :
    ((∀ t : α, (objective_delta_stop_strategy.create t).isSome = true ↔ 0 ≤ t) ∧
      (∀ (t : α) (m : Nat),
        (objective_delta_stop_strategy.create_max_iter t m).isSome = true ↔ 0 ≤ t ∧ 0 < m) ∧
      (∀ t : α, (gradient_norm_stop_strategy.create t).isSome = true ↔ 0 ≤ t) ∧
      (∀ (t : α) (m : Nat),
        (gradient_norm_stop_strategy.create_max_iter t m).isSome = true ↔ 0 ≤ t ∧ 0 < m)) ∧
    ((∀ min_norm t t' : α,
        (gradient_max_abs_val_stop_strategy.create min_norm t).isSome =
          (gradient_max_abs_val_stop_strategy.create min_norm t').isSome) ∧
      (∀ (min_norm t t' : α) (m : Nat),
        (gradient_max_abs_val_stop_strategy.create_max_iter min_norm t m).isSome =
          (gradient_max_abs_val_stop_strategy.create_max_iter min_norm t' m).isSome) ∧
      (∀ min_norm : α,
        ¬ ∀ t : α, (gradient_max_abs_val_stop_strategy.create min_norm t).isSome = true ↔
          0 ≤ t) ∧
      gradient_max_abs_val_stop_strategy.create (0 : ℚ) (-1) =
        some (gradient_max_abs_val_stop_strategy.init (-1)) ∧
      gradient_max_abs_val_stop_strategy.create_max_iter (0 : ℚ) (-1) 5 =
        some (gradient_max_abs_val_stop_strategy.init_max_iter (-1) 5)) := by
  refine ⟨⟨?_, ?_, ?_, ?_⟩, ?_, ?_, ?_, ?_, ?_⟩
  · intro t
    by_cases h : 0 ≤ t <;>
      simp [objective_delta_stop_strategy.create, DLIB_ASSERT, h]
  · intro t m
    by_cases h : 0 ≤ t ∧ 0 < m
    · simp [objective_delta_stop_strategy.create_max_iter, DLIB_ASSERT, h]
    · simp only [objective_delta_stop_strategy.create_max_iter, DLIB_ASSERT, ge_iff_le,
        gt_iff_lt, if_neg h]
      simp [h]
  · intro t
    by_cases h : 0 ≤ t <;>
      simp [gradient_norm_stop_strategy.create, DLIB_ASSERT, h]
  · intro t m
    by_cases h : 0 ≤ t ∧ 0 < m
    · simp [gradient_norm_stop_strategy.create_max_iter, DLIB_ASSERT, h]
    · simp only [gradient_norm_stop_strategy.create_max_iter, DLIB_ASSERT, ge_iff_le,
        gt_iff_lt, if_neg h]
      simp [h]
  · intro min_norm t t'
    by_cases h : 0 ≤ min_norm <;>
      simp [gradient_max_abs_val_stop_strategy.create, DLIB_ASSERT, h]
  · intro min_norm t t' m
    by_cases h : 0 ≤ min_norm ∧ 0 < m
    · simp [gradient_max_abs_val_stop_strategy.create_max_iter, DLIB_ASSERT, h]
    · simp only [gradient_max_abs_val_stop_strategy.create_max_iter, DLIB_ASSERT, ge_iff_le,
        gt_iff_lt, if_neg h]
  · intro min_norm hall
    by_cases h : 0 ≤ min_norm
    · have h1 := (hall (-1)).mp
        (by simp [gradient_max_abs_val_stop_strategy.create, DLIB_ASSERT, h])
      linarith
    · have h1 := (hall 0).mpr (le_refl 0)
      simp [gradient_max_abs_val_stop_strategy.create, DLIB_ASSERT, h] at h1
  · rw [gradient_max_abs_val_create_eq_some_iff]
    exact ⟨le_refl 0, rfl⟩
  · rw [gradient_max_abs_val_create_max_iter_eq_some_iff]
    exact ⟨⟨le_refl 0, by norm_num⟩, rfl⟩

/-- C9: `objective_delta_stop_strategy` with tolerance `0` is constructed by
both constructors (cap `m > 0`); uncapped, every call of every sequence returns
`true`; with the cap `m`, the call made after the calls `pre` returns `false`
if and only if its call number `pre.length + 1` exceeds `m`. -/
theorem C9_objective_delta_zero_tolerance {T : Type} (sub : α → α → α) (m : Nat) (hm : 0 < m) :
    (∃ s, objective_delta_stop_strategy.create (0 : α) = some s ∧
      (∀ (pre : List (T × α × T)) (x : T) (f : α) (g : T),
        (objective_delta_stop_strategy.should_continue_search sub
          (objective_delta_stop_strategy.calls sub s pre).2 x f g).result = true) ∧
      (∀ (inputs : List (T × α × T)),
        ∀ r ∈ (objective_delta_stop_strategy.calls sub s inputs).1, r = true)) ∧
    (∃ s, objective_delta_stop_strategy.create_max_iter (0 : α) m = some s ∧
      ∀ (pre : List (T × α × T)) (x : T) (f : α) (g : T),
        (objective_delta_stop_strategy.should_continue_search sub
          (objective_delta_stop_strategy.calls sub s pre).2 x f g).result = false ↔
          pre.length + 1 > m) := by
  have hm0 : m ≠ 0 := Nat.pos_iff_ne_zero.mp hm
  have key : ∀ (pre : List (T × α × T)) (x : T) (f : α) (g : T),
      (objective_delta_stop_strategy.should_continue_search sub
        (objective_delta_stop_strategy.calls sub
          (objective_delta_stop_strategy.init (0 : α)) pre).2 x f g).result = true := by
    intro pre x f g
    rw [← Bool.not_eq_false, objective_delta_result_after_calls]
    simp only [objective_delta_stop_strategy.init]
    rintro ⟨_, h | h⟩
    · exact h.1 rfl
    · exact absurd h (not_lt.mpr (abs_nonneg _))
  refine ⟨⟨objective_delta_stop_strategy.init 0, ?_, key, ?_⟩,
    ⟨objective_delta_stop_strategy.init_max_iter 0 m, ?_, ?_⟩⟩
  · rw [objective_delta_create_eq_some_iff]
    exact ⟨le_refl 0, rfl⟩
  · intro inputs
    exact call_sequence_all_true _ _ (fun pre i => key pre i.1 i.2.1 i.2.2) inputs
  · rw [objective_delta_create_max_iter_eq_some_iff]
    exact ⟨⟨le_refl 0, hm⟩, rfl⟩
  · intro pre x f g
    rw [objective_delta_result_after_calls]
    simp only [objective_delta_stop_strategy.init_max_iter]
    constructor
    · rintro ⟨_, h | h⟩
      · omega
      · exact absurd h (not_lt.mpr (abs_nonneg _))
    · intro h
      refine ⟨Or.inr ?_, Or.inl ⟨hm0, by omega⟩⟩
      intro hnil
      rw [hnil] at h
      simp at h
      omega

/-- Witness of C9 with cap `3` over the rationals. -/
theorem C9_objective_delta_zero_tolerance_witness :
    0 < 3 ∧
      ∃ s, objective_delta_stop_strategy.create_max_iter (0 : ℚ) 3 = some s ∧
        ∀ (pre : List (List ℚ × ℚ × List ℚ)) (x : List ℚ) (f : ℚ) (g : List ℚ),
          (objective_delta_stop_strategy.should_continue_search binary64_sub
            (objective_delta_stop_strategy.calls binary64_sub s pre).2 x f g).result = false ↔
            pre.length + 1 > 3 :=
  ⟨by norm_num, (C9_objective_delta_zero_tolerance binary64_sub 3 (by norm_num)).2⟩

/-- C10: for a strategy built by the one-argument constructor (no cap) with
tolerance `t >= 0`, at every call, whatever calls `pre` were made before:
`gradient_norm_stop_strategy` returns `true` if and only if `length(d) >= t`,
`gradient_max_abs_val_stop_strategy` returns `true` if and only if
`max(abs(d)) >= t`, and `objective_delta_stop_strategy` returns `false` if and
only if the call is not the first and `|d| < t` for the difference
`d = sub funct_value _prev_funct_value` that the subtraction of `double`
computes, whatever that subtraction is; for the binary64 subtraction and a
binary64 tolerance it returns `false` only on a call that is not the first
and has `|funct_value - _prev_funct_value| < t` for the exact difference. -/
theorem C10_uncapped_decision {T : Type} (sub : α → α → α) (length : T → α) (abs : T → T)
    (max : T → α) (t min_norm : α) (ht : 0 ≤ t) (hmn : 0 ≤ min_norm) :
    (∃ s, gradient_norm_stop_strategy.create t = some s ∧
      ∀ (pre : List (T × α × T)) (x : T) (f : α) (d : T),
        (gradient_norm_stop_strategy.should_continue_search length
          (gradient_norm_stop_strategy.calls length s pre).2 x f d).result = true ↔
          length d ≥ t) ∧
    (∃ s, gradient_max_abs_val_stop_strategy.create min_norm t = some s ∧
      ∀ (pre : List (T × α × T)) (x : T) (f : α) (d : T),
        (gradient_max_abs_val_stop_strategy.should_continue_search abs max
          (gradient_max_abs_val_stop_strategy.calls abs max s pre).2 x f d).result = true ↔
          max (abs d) ≥ t) ∧
    (∃ s, objective_delta_stop_strategy.create t = some s ∧
      ∀ (pre : List (T × α × T)) (x : T) (f : α) (g : T),
        (objective_delta_stop_strategy.should_continue_search sub
          (objective_delta_stop_strategy.calls sub s pre).2 x f g).result = false ↔
          pre ≠ [] ∧
            |sub f (objective_delta_stop_strategy.calls sub s pre).2._prev_funct_value| <
              t) ∧
    (∀ tol : ℚ, 0 ≤ tol → binary64_round tol = tol →
      ∃ s, objective_delta_stop_strategy.create tol = some s ∧
        ∀ (pre : List (List ℚ × ℚ × List ℚ)) (x : List ℚ) (f : ℚ) (g : List ℚ),
          (objective_delta_stop_strategy.should_continue_search binary64_sub
            (objective_delta_stop_strategy.calls binary64_sub s pre).2 x f g).result =
              false →
          pre ≠ [] ∧
            |f - (objective_delta_stop_strategy.calls binary64_sub s pre).2._prev_funct_value|
              < tol) := by
  refine ⟨⟨gradient_norm_stop_strategy.init t, ?_, ?_⟩,
    ⟨gradient_max_abs_val_stop_strategy.init t, ?_, ?_⟩,
    ⟨objective_delta_stop_strategy.init t, ?_, ?_⟩, ?_⟩
  · rw [gradient_norm_create_eq_some_iff]
    exact ⟨ht, rfl⟩
  · intro pre x f d
    unfold gradient_norm_stop_strategy.init
    rw [← Bool.not_eq_false, gradient_norm_result_after_calls]
    simp
  · rw [gradient_max_abs_val_create_eq_some_iff]
    exact ⟨hmn, rfl⟩
  · intro pre x f d
    unfold gradient_max_abs_val_stop_strategy.init
    rw [← Bool.not_eq_false, gradient_max_abs_val_result_after_calls]
    simp
  · rw [objective_delta_create_eq_some_iff]
    exact ⟨ht, rfl⟩
  · intro pre x f g
    rw [objective_delta_result_after_calls]
    simp [objective_delta_stop_strategy.init]
  · intro tol htol hrep
    refine ⟨objective_delta_stop_strategy.init tol, ?_, ?_⟩
    · rw [objective_delta_create_eq_some_iff]
      exact ⟨htol, rfl⟩
    · intro pre x f g hres
      rw [objective_delta_result_after_calls] at hres
      have hinit : (objective_delta_stop_strategy.init tol)._been_used = false := rfl
      have hmax : (objective_delta_stop_strategy.init tol)._max_iter = 0 := rfl
      have hdelta : (objective_delta_stop_strategy.init tol)._min_delta = tol := rfl
      rw [hinit, hmax, hdelta] at hres
      obtain ⟨h1, h2⟩ := hres
      constructor
      · rcases h1 with h1 | h1
        · exact absurd h1 (by simp)
        · exact h1
      · rcases h2 with h2 | h2
        · exact absurd rfl h2.1
        · exact binary64_sub_abs_lt tol _ _ htol hrep h2

/-- Witness of C10 over the reals with tolerance `0.001` and the list matrix
functions: the `gradient_norm_stop_strategy` part. -/
theorem C10_uncapped_decision_witness :
    (0 : ℝ) ≤ 0.001 ∧ (0 : ℝ) ≤ 1 ∧
      ∃ s, gradient_norm_stop_strategy.create (0.001 : ℝ) = some s ∧
        ∀ (pre : List (List ℝ × ℝ × List ℝ)) (x : List ℝ) (f : ℝ) (d : List ℝ),
          (gradient_norm_stop_strategy.should_continue_search (matrix_length Real.sqrt)
            (gradient_norm_stop_strategy.calls (matrix_length Real.sqrt) s pre).2
              x f d).result = true ↔
            matrix_length Real.sqrt d ≥ 0.001 :=
  ⟨by norm_num, by norm_num,
    (C10_uncapped_decision binary64_sub (matrix_length Real.sqrt) matrix_abs matrix_max
      (0.001 : ℝ) 1 (by norm_num) (by norm_num)).1⟩

/-- C12: for `gradient_norm_stop_strategy` and
`gradient_max_abs_val_stop_strategy`, a call that the cap stops leaves the
stored metric unchanged and any other call stores the norm (greatest absolute
component) of its derivative, whatever it then returns; hence after any
sequence of calls on a new object with cap `m` (`0` for none) the accessor
`current_gradient_norm()` (`current_gradient_max_abs_val()`) holds the value
for the derivative of the most recent call not stopped by the cap, which is
the last call when `m = 0` and the last of the first `m` calls otherwise. -/
theorem C12_gradient_metric_of_last_uncapped_call {T : Type} (length : T → α)
    (abs : T → T) (max : T → α) :
    ((∀ (s : gradient_norm_stop_strategy α) (x : T) (f : α) (d : T),
        gradient_norm_stop_strategy.current_gradient_norm
            (gradient_norm_stop_strategy.should_continue_search length s x f d).self =
          if s._max_iter ≠ 0 ∧ s._cur_iter + 1 > s._max_iter then
            gradient_norm_stop_strategy.current_gradient_norm s
          else some (length d)) ∧
      ∀ (t : α) (m : Nat) (inputs : List (T × α × T)),
        gradient_norm_stop_strategy.current_gradient_norm
            (gradient_norm_stop_strategy.calls length
              (gradient_norm_stop_strategy.init_max_iter t m) inputs).2 =
          ((if m = 0 then inputs else inputs.take m).getLast?).map
            (fun i => length i.2.2)) ∧
    ((∀ (s : gradient_max_abs_val_stop_strategy α) (x : T) (f : α) (d : T),
        gradient_max_abs_val_stop_strategy.current_gradient_max_abs_val
            (gradient_max_abs_val_stop_strategy.should_continue_search abs max s x f d).self =
          if s._max_iter ≠ 0 ∧ s._cur_iter + 1 > s._max_iter then
            gradient_max_abs_val_stop_strategy.current_gradient_max_abs_val s
          else some (max (abs d))) ∧
      ∀ (t : α) (m : Nat) (inputs : List (T × α × T)),
        gradient_max_abs_val_stop_strategy.current_gradient_max_abs_val
            (gradient_max_abs_val_stop_strategy.calls abs max
              (gradient_max_abs_val_stop_strategy.init_max_iter t m) inputs).2 =
          ((if m = 0 then inputs else inputs.take m).getLast?).map
            (fun i => max (abs i.2.2))) := by
  refine ⟨⟨?_, ?_⟩, ⟨?_, ?_⟩⟩
  · intro s x f d
    exact gradient_norm_metric_step length s x f d
  · intro t m inputs
    exact gradient_norm_metric_after_calls length t m inputs
  · intro s x f d
    exact gradient_max_abs_val_metric_step abs max s x f d
  · intro t m inputs
    exact gradient_max_abs_val_metric_after_calls abs max t m inputs

/-- C13: for each of the three strategies `be_verbose` sets `_verbose` to
`true`, leaves every other data member as it was, and applying it twice gives
the same object as applying it once. -/
theorem C13_be_verbose_idempotent {β : Type} :
    (∀ s : objective_delta_stop_strategy β,
      objective_delta_stop_strategy.be_verbose (objective_delta_stop_strategy.be_verbose s) =
          objective_delta_stop_strategy.be_verbose s ∧
        objective_delta_stop_strategy.be_verbose s =
          { _verbose := true, _been_used := s._been_used, _min_delta := s._min_delta,
            _max_iter := s._max_iter, _cur_iter := s._cur_iter,
            _prev_funct_value := s._prev_funct_value,
            _current_change_in_function_value := s._current_change_in_function_value }) ∧
    (∀ s : gradient_norm_stop_strategy β,
      gradient_norm_stop_strategy.be_verbose (gradient_norm_stop_strategy.be_verbose s) =
          gradient_norm_stop_strategy.be_verbose s ∧
        gradient_norm_stop_strategy.be_verbose s =
          { _verbose := true, _min_norm := s._min_norm, _max_iter := s._max_iter,
            _cur_iter := s._cur_iter,
            _current_gradient_norm := s._current_gradient_norm }) ∧
    (∀ s : gradient_max_abs_val_stop_strategy β,
      gradient_max_abs_val_stop_strategy.be_verbose
          (gradient_max_abs_val_stop_strategy.be_verbose s) =
          gradient_max_abs_val_stop_strategy.be_verbose s ∧
        gradient_max_abs_val_stop_strategy.be_verbose s =
          { _verbose := true, _min_gradient_abs_val := s._min_gradient_abs_val,
            _max_iter := s._max_iter, _cur_iter := s._cur_iter,
            _current_gradient_max_abs_val := s._current_gradient_max_abs_val }) := by
  refine ⟨?_, ?_, ?_⟩
  · intro s
    exact ⟨rfl, rfl⟩
  · intro s
    exact ⟨rfl, rfl⟩
  · intro s
    exact ⟨rfl, rfl⟩

/-- C14 (as stated, refuted): on `objective_delta_stop_strategy(0.01)`, which
has no cap, the calls with the objectives `10.0` and `9.9999` return `true` and
`false`, and after the second call, which no cap stopped, the recorded
objective is still `10.0`, not `9.9999`: a call that stops for a small change
records nothing. -/
theorem C14_objective_delta_stop_on_delta_keeps_previous :
    objective_delta_stop_strategy.create (0.01 : ℚ) =
        some (objective_delta_stop_strategy.init 0.01) ∧
      (objective_delta_stop_strategy.init (0.01 : ℚ))._max_iter = 0 ∧
      (objective_delta_stop_strategy.calls binary64_sub
        (objective_delta_stop_strategy.init (0.01 : ℚ))
        [(([1] : List ℚ), 10.0, [2]), ([1], 9.9999, [2])]).1 = [true, false] ∧
      (objective_delta_stop_strategy.calls binary64_sub
        (objective_delta_stop_strategy.init (0.01 : ℚ))
        [(([1] : List ℚ), 10.0, [2]), ([1], 9.9999, [2])]).2._prev_funct_value = 10.0 := by
  have hres : (objective_delta_stop_strategy.calls binary64_sub
      (objective_delta_stop_strategy.init (0.01 : ℚ))
      [(([1] : List ℚ), 10.0, [2]), ([1], 9.9999, [2])]).1 = [true, false] :=
    objective_delta_two_calls_of_lt _ _ _ _ _ _ _ _ binary64_sub_abs_lt_of_objectives
  refine ⟨?_, rfl, hres, ?_⟩
  · rw [objective_delta_create_eq_some_iff]
    exact ⟨by norm_num, rfl⟩
  · rw [objective_delta_prev_after_calls, hres]
    rfl

/-- C14 (amended): a call of `objective_delta_stop_strategy::
should_continue_search` that returns `true`, that is, one that returns early
neither for the cap nor for a small change, records its objective value as
the new `_prev_funct_value`; and `_been_used` is `true` at the end of every
call. -/
theorem C14_objective_delta_records_objective_on_true {T : Type} (sub : α → α → α)
    (s : objective_delta_stop_strategy α) (x : T) (f : α) (g : T)
    (h : (objective_delta_stop_strategy.should_continue_search sub s x f g).result = true) :
    (objective_delta_stop_strategy.should_continue_search sub s x f g).self._prev_funct_value = f ∧
      (objective_delta_stop_strategy.should_continue_search sub s x f g).self._been_used = true ∧
      ∀ (s' : objective_delta_stop_strategy α) (x' : T) (f' : α) (g' : T),
        (objective_delta_stop_strategy.should_continue_search sub s' x' f' g').self._been_used =
          true := by
  refine ⟨?_, objective_delta_been_used_step sub s x f g, ?_⟩
  · rw [objective_delta_prev_step, if_pos h]
  · intro s' x' f' g'
    exact objective_delta_been_used_step sub s' x' f' g'

/-- Witness of C14 (amended): the first call on
`objective_delta_stop_strategy(0.01)` returns `true` and records its objective
`10`. -/
theorem C14_objective_delta_records_objective_on_true_witness :
    (objective_delta_stop_strategy.should_continue_search binary64_sub
        (objective_delta_stop_strategy.init (0.01 : ℚ)) ([1] : List ℚ) 10 [2]).result = true ∧
      objective_delta_stop_strategy._prev_funct_value
        (objective_delta_stop_strategy.should_continue_search binary64_sub
          (objective_delta_stop_strategy.init (0.01 : ℚ)) ([1] : List ℚ) 10 [2]).self = 10 :=
  ⟨by simp [objective_delta_stop_strategy.should_continue_search,
      objective_delta_stop_strategy.init],
    (C14_objective_delta_records_objective_on_true binary64_sub
      (objective_delta_stop_strategy.init (0.01 : ℚ)) ([1] : List ℚ) 10 [2]
      (by simp [objective_delta_stop_strategy.should_continue_search,
        objective_delta_stop_strategy.init])).1⟩

/-- C15 (the code at the failing input): after any sequence of
`should_continue_search` and `be_verbose` calls on a constructed object,
`objective_delta_stop_strategy` and `gradient_norm_stop_strategy` have a
tolerance `>= 0`, and all three classes have the tolerance and the cap given
at construction (cap `0` for the one-argument constructor).  But
`gradient_max_abs_val_stop_strategy` asserts on `min_norm` and not on its
tolerance: with `min_norm = 0` the tolerance `-1` is accepted, and after any
sequence of calls the tolerance of that object is `-1`, which is negative. -/
theorem C15_tolerance_and_cap_of_reachable_states {T : Type} (sub : α → α → α)
    (length : T → α)
    (abs : T → T) (max : T → α) (t min_norm tol : α) (m : Nat) (ht : 0 ≤ t)
    (hmn : 0 ≤ min_norm) (hm : 0 < m) (ops : List (member_call T α))
    (ops' : List (member_call (List ℚ) ℚ)) :
    ((∃ s, objective_delta_stop_strategy.create t = some s ∧
        0 ≤ (objective_delta_stop_strategy.perform sub s ops)._min_delta ∧
        (objective_delta_stop_strategy.perform sub s ops)._min_delta = t ∧
        (objective_delta_stop_strategy.perform sub s ops)._max_iter = 0) ∧
      (∃ s, objective_delta_stop_strategy.create_max_iter t m = some s ∧
        0 ≤ (objective_delta_stop_strategy.perform sub s ops)._min_delta ∧
        (objective_delta_stop_strategy.perform sub s ops)._min_delta = t ∧
        (objective_delta_stop_strategy.perform sub s ops)._max_iter = m)) ∧
    ((∃ s, gradient_norm_stop_strategy.create t = some s ∧
        0 ≤ (gradient_norm_stop_strategy.perform length s ops)._min_norm ∧
        (gradient_norm_stop_strategy.perform length s ops)._min_norm = t ∧
        (gradient_norm_stop_strategy.perform length s ops)._max_iter = 0) ∧
      (∃ s, gradient_norm_stop_strategy.create_max_iter t m = some s ∧
        0 ≤ (gradient_norm_stop_strategy.perform length s ops)._min_norm ∧
        (gradient_norm_stop_strategy.perform length s ops)._min_norm = t ∧
        (gradient_norm_stop_strategy.perform length s ops)._max_iter = m)) ∧
    ((∃ s, gradient_max_abs_val_stop_strategy.create min_norm tol = some s ∧
        (gradient_max_abs_val_stop_strategy.perform abs max s ops)._min_gradient_abs_val =
          tol ∧
        (gradient_max_abs_val_stop_strategy.perform abs max s ops)._max_iter = 0) ∧
      (∃ s, gradient_max_abs_val_stop_strategy.create_max_iter min_norm tol m = some s ∧
        (gradient_max_abs_val_stop_strategy.perform abs max s ops)._min_gradient_abs_val =
          tol ∧
        (gradient_max_abs_val_stop_strategy.perform abs max s ops)._max_iter = m)) ∧
    (∃ s, gradient_max_abs_val_stop_strategy.create (0 : ℚ) (-1) = some s ∧
      (gradient_max_abs_val_stop_strategy.perform matrix_abs matrix_max s
        ops')._min_gradient_abs_val = -1 ∧
      (gradient_max_abs_val_stop_strategy.perform matrix_abs matrix_max s
        ops')._min_gradient_abs_val < 0) := by
  refine ⟨⟨⟨objective_delta_stop_strategy.init t, ?_, ?_, ?_, ?_⟩,
      ⟨objective_delta_stop_strategy.init_max_iter t m, ?_, ?_, ?_, ?_⟩⟩,
    ⟨⟨gradient_norm_stop_strategy.init t, ?_, ?_, ?_, ?_⟩,
      ⟨gradient_norm_stop_strategy.init_max_iter t m, ?_, ?_, ?_, ?_⟩⟩,
    ⟨⟨gradient_max_abs_val_stop_strategy.init tol, ?_, ?_, ?_⟩,
      ⟨gradient_max_abs_val_stop_strategy.init_max_iter tol m, ?_, ?_, ?_⟩⟩,
    ⟨gradient_max_abs_val_stop_strategy.init (-1), ?_, ?_, ?_⟩⟩
  · rw [objective_delta_create_eq_some_iff]
    exact ⟨ht, rfl⟩
  · rw [objective_delta_perform_min_delta]
    exact ht
  · rw [objective_delta_perform_min_delta]
    rfl
  · rw [objective_delta_perform_max_iter]
    rfl
  · rw [objective_delta_create_max_iter_eq_some_iff]
    exact ⟨⟨ht, hm⟩, rfl⟩
  · rw [objective_delta_perform_min_delta]
    exact ht
  · rw [objective_delta_perform_min_delta]
    rfl
  · rw [objective_delta_perform_max_iter]
    rfl
  · rw [gradient_norm_create_eq_some_iff]
    exact ⟨ht, rfl⟩
  · rw [gradient_norm_perform_min_norm]
    exact ht
  · rw [gradient_norm_perform_min_norm]
    rfl
  · rw [gradient_norm_perform_max_iter]
    rfl
  · rw [gradient_norm_create_max_iter_eq_some_iff]
    exact ⟨⟨ht, hm⟩, rfl⟩
  · rw [gradient_norm_perform_min_norm]
    exact ht
  · rw [gradient_norm_perform_min_norm]
    rfl
  · rw [gradient_norm_perform_max_iter]
    rfl
  · rw [gradient_max_abs_val_create_eq_some_iff]
    exact ⟨hmn, rfl⟩
  · rw [gradient_max_abs_val_perform_tolerance]
    rfl
  · rw [gradient_max_abs_val_perform_max_iter]
    rfl
  · rw [gradient_max_abs_val_create_max_iter_eq_some_iff]
    exact ⟨⟨hmn, hm⟩, rfl⟩
  · rw [gradient_max_abs_val_perform_tolerance]
    rfl
  · rw [gradient_max_abs_val_perform_max_iter]
    rfl
  · rw [gradient_max_abs_val_create_eq_some_iff]
    exact ⟨le_refl 0, rfl⟩
  · rw [gradient_max_abs_val_perform_tolerance]
    rfl
  · rw [gradient_max_abs_val_perform_tolerance]
    show (-1 : ℚ) < 0
    norm_num

/-- Witness of C15: `gradient_max_abs_val_stop_strategy(-1)` with `min_norm`
bound to `0`, made verbose and called once with the derivative `[3, 4]`, has
the negative tolerance `-1`. -/
theorem C15_tolerance_and_cap_of_reachable_states_witness :
    (0 : ℝ) ≤ 0.01 ∧ (0 : ℝ) ≤ 0 ∧ 0 < 5 ∧
      ∃ s, gradient_max_abs_val_stop_strategy.create (0 : ℚ) (-1) = some s ∧
        (gradient_max_abs_val_stop_strategy.perform matrix_abs matrix_max s
          [member_call.be_verbose,
            member_call.should_continue_search [1] 7 [3, 4]])._min_gradient_abs_val = -1 ∧
        (gradient_max_abs_val_stop_strategy.perform matrix_abs matrix_max s
          [member_call.be_verbose,
            member_call.should_continue_search [1] 7 [3, 4]])._min_gradient_abs_val < 0 :=
  ⟨by norm_num, le_refl 0, by norm_num,
    (C15_tolerance_and_cap_of_reachable_states binary64_sub (matrix_length Real.sqrt)
      matrix_abs matrix_max (0.01 : ℝ) 0 (-1) 5 (by norm_num) (le_refl 0) (by norm_num)
      [member_call.be_verbose, member_call.should_continue_search [1] 7 [3, 4]]
      [member_call.be_verbose, member_call.should_continue_search [1] 7 [3, 4]]).2.2.2⟩

/-- C16: a call of `objective_delta_stop_strategy::should_continue_search` that
returns `false` leaves `_prev_funct_value` and `_been_used` unchanged and a
call that returns `true` sets `_prev_funct_value` to its objective value;
hence after any sequence of calls the recorded objective, from which the next
call subtracts (by the subtraction `sub` of `double`, whatever it is), is the
objective value of the most recent call that returned `true` (the value
recorded before the sequence when no call returned `true`). -/
theorem C16_objective_delta_reference_is_last_true_call {T : Type} (sub : α → α → α) :
    (∀ (s : objective_delta_stop_strategy α) (x : T) (f : α) (g : T),
      (objective_delta_stop_strategy.should_continue_search sub s x f g).self._prev_funct_value =
          (if (objective_delta_stop_strategy.should_continue_search sub s x f g).result = true
            then f else s._prev_funct_value) ∧
        (objective_delta_stop_strategy.should_continue_search sub s x f g).self._been_used =
          (s._been_used ||
            (objective_delta_stop_strategy.should_continue_search sub s x f g).result)) ∧
    (∀ (s : objective_delta_stop_strategy α) (inputs : List (T × α × T)),
      (objective_delta_stop_strategy.calls sub s inputs).2._prev_funct_value =
        ((((inputs.zip (objective_delta_stop_strategy.calls sub s inputs).1).filter
            (fun p => p.2)).getLast?).map (fun p => p.1.2.1)).getD s._prev_funct_value) ∧
    (∀ (s : objective_delta_stop_strategy α) (pre : List (T × α × T)) (x : T) (f : α) (g : T),
      (objective_delta_stop_strategy.should_continue_search sub
          (objective_delta_stop_strategy.calls sub s pre).2 x f g).result = false ↔
        (s._been_used = true ∨ pre ≠ []) ∧
          ((s._max_iter ≠ 0 ∧ s._cur_iter + pre.length + 1 > s._max_iter) ∨
            |sub f
                (((((pre.zip (objective_delta_stop_strategy.calls sub s pre).1).filter
                  (fun p => p.2)).getLast?).map (fun p => p.1.2.1)).getD
                    s._prev_funct_value)| <
              s._min_delta)) := by
  refine ⟨?_, ?_, ?_⟩
  · intro s x f g
    exact ⟨objective_delta_prev_step sub s x f g,
      objective_delta_been_used_step_eq sub s x f g⟩
  · intro s inputs
    exact objective_delta_prev_after_calls sub s inputs
  · intro s pre x f g
    rw [objective_delta_result_after_calls, objective_delta_prev_after_calls]

/-- C17: for each of the three strategies, two new objects with the same cap
`m` (`0` for none) and tolerances `t <= t'`, and any sequence of inputs given
to both: the index of the first call that returns `false` on the object with
tolerance `t'` is at most the index of the first call that returns `false` on
the object with tolerance `t` (the index is the number of calls when no call
returns `false`). -/
theorem C17_looser_tolerance_stops_no_later {T : Type} (sub : α → α → α)
    (length : T → α) (abs : T → T)
    (max : T → α) (t t' : α) (m : Nat) (htt : t ≤ t') (inputs : List (T × α × T)) :
    (objective_delta_stop_strategy.calls sub
          (objective_delta_stop_strategy.init_max_iter t' m) inputs).1.findIdx (fun r => !r) ≤
        (objective_delta_stop_strategy.calls sub
          (objective_delta_stop_strategy.init_max_iter t m) inputs).1.findIdx (fun r => !r) ∧
    (gradient_norm_stop_strategy.calls length
          (gradient_norm_stop_strategy.init_max_iter t' m) inputs).1.findIdx (fun r => !r) ≤
        (gradient_norm_stop_strategy.calls length
          (gradient_norm_stop_strategy.init_max_iter t m) inputs).1.findIdx (fun r => !r) ∧
    (gradient_max_abs_val_stop_strategy.calls abs max
          (gradient_max_abs_val_stop_strategy.init_max_iter t' m) inputs).1.findIdx
            (fun r => !r) ≤
        (gradient_max_abs_val_stop_strategy.calls abs max
          (gradient_max_abs_val_stop_strategy.init_max_iter t m) inputs).1.findIdx
            (fun r => !r) := by
  refine ⟨?_, ?_, ?_⟩
  · refine call_sequence_first_false_le _ _
      (fun s s' : objective_delta_stop_strategy α =>
        s._been_used = s'._been_used ∧ s._max_iter = s'._max_iter ∧
          s._cur_iter = s'._cur_iter ∧ s._prev_funct_value = s'._prev_funct_value ∧
          s._min_delta ≤ s'._min_delta) ?_ _ _ inputs ⟨rfl, rfl, rfl, rfl, htt⟩
    rintro s s' i ⟨hb, hm, hc, hp, hd⟩ hr'
    have hr : (objective_delta_stop_strategy.should_continue_search sub s i.1 i.2.1 i.2.2).result
        = true := by
      rw [← Bool.not_eq_false, objective_delta_result_eq_false_iff]
      rintro ⟨h1, h2⟩
      have hfalse := (objective_delta_result_eq_false_iff sub s' i.1 i.2.1 i.2.2).mpr
        ⟨hb ▸ h1, by
          rcases h2 with h2 | h2
          · exact Or.inl (hm ▸ hc ▸ h2)
          · exact Or.inr (lt_of_lt_of_le (hp ▸ h2) hd)⟩
      rw [hr'] at hfalse
      exact Bool.noConfusion hfalse
    refine ⟨hr, ?_, ?_, ?_, ?_, ?_⟩
    · simp only [objective_delta_been_used_step]
    · simp only [objective_delta_max_iter_step, hm]
    · simp only [objective_delta_cur_iter_step, hc]
    · simp only [objective_delta_prev_step]
      rw [if_pos hr, if_pos hr']
    · simp only [objective_delta_min_delta_step]
      exact hd
  · refine call_sequence_first_false_le _ _
      (fun s s' : gradient_norm_stop_strategy α =>
        s._max_iter = s'._max_iter ∧ s._cur_iter = s'._cur_iter ∧ s._min_norm ≤ s'._min_norm)
      ?_ _ _ inputs ⟨rfl, rfl, htt⟩
    rintro s s' i ⟨hm, hc, hd⟩ hr'
    refine ⟨?_, ?_, ?_, ?_⟩
    · rw [← Bool.not_eq_false, gradient_norm_result_eq_false_iff]
      intro h2
      have hfalse := (gradient_norm_result_eq_false_iff length s' i.1 i.2.1 i.2.2).mpr (by
        rcases h2 with h2 | h2
        · exact Or.inl (hm ▸ hc ▸ h2)
        · exact Or.inr (lt_of_lt_of_le h2 hd))
      rw [hr'] at hfalse
      exact Bool.noConfusion hfalse
    · simp only [gradient_norm_max_iter_step, hm]
    · simp only [gradient_norm_cur_iter_step, hc]
    · simp only [gradient_norm_min_norm_step]
      exact hd
  · refine call_sequence_first_false_le _ _
      (fun s s' : gradient_max_abs_val_stop_strategy α =>
        s._max_iter = s'._max_iter ∧ s._cur_iter = s'._cur_iter ∧
          s._min_gradient_abs_val ≤ s'._min_gradient_abs_val)
      ?_ _ _ inputs ⟨rfl, rfl, htt⟩
    rintro s s' i ⟨hm, hc, hd⟩ hr'
    refine ⟨?_, ?_, ?_, ?_⟩
    · rw [← Bool.not_eq_false, gradient_max_abs_val_result_eq_false_iff]
      intro h2
      have hfalse := (gradient_max_abs_val_result_eq_false_iff abs max s'
        i.1 i.2.1 i.2.2).mpr (by
        rcases h2 with h2 | h2
        · exact Or.inl (hm ▸ hc ▸ h2)
        · exact Or.inr (lt_of_lt_of_le h2 hd))
      rw [hr'] at hfalse
      exact Bool.noConfusion hfalse
    · simp only [gradient_max_abs_val_max_iter_step, hm]
    · simp only [gradient_max_abs_val_cur_iter_step, hc]
    · simp only [gradient_max_abs_val_tolerance_step]
      exact hd

/-- Witness of C17 over the reals: tolerances `0.001 <= 0.01`, no cap, the
objectives `10, 9.995, 9.9949`; the `objective_delta_stop_strategy` part. -/
theorem C17_looser_tolerance_stops_no_later_witness :
    (0.001 : ℝ) ≤ 0.01 ∧
      (objective_delta_stop_strategy.calls binary64_sub
          (objective_delta_stop_strategy.init_max_iter (0.01 : ℝ) 0)
          [(([1] : List ℝ), 10, [3, 4]), ([1], 9.995, [3, 4]),
            ([1], 9.9949, [3, 4])]).1.findIdx (fun r => !r) ≤
        (objective_delta_stop_strategy.calls binary64_sub
          (objective_delta_stop_strategy.init_max_iter (0.001 : ℝ) 0)
          [(([1] : List ℝ), 10, [3, 4]), ([1], 9.995, [3, 4]),
            ([1], 9.9949, [3, 4])]).1.findIdx (fun r => !r) :=
  ⟨by norm_num,
    (C17_looser_tolerance_stops_no_later binary64_sub (matrix_length Real.sqrt) matrix_abs
      matrix_max (0.001 : ℝ) 0.01 0 (by norm_num)
      [(([1] : List ℝ), 10, [3, 4]), ([1], 9.995, [3, 4]), ([1], 9.9949, [3, 4])]).1⟩

/-- C18 (with `length`, `abs` and `max` modelled from the spec on real
vectors): for a non-empty derivative `d` and objects of
`gradient_norm_stop_strategy` and `gradient_max_abs_val_stop_strategy` with the
same tolerance `t`, cap `m` and iteration count `k`, if the former returns
`false` on `d` then so does the latter, because `max_i |d_i| <= ||d||_2`; the
converse fails: with tolerance `4.5`, no cap and `d = [3, 4]` the latter
returns `false` and the former `true`. -/
theorem C18_gradient_norm_stop_implies_max_abs_stop (v v' : Bool) (t : ℝ) (m k : Nat)
    (c c' : Option ℝ) (x : List ℝ) (f : ℝ) (d : List ℝ) (hd : d ≠ [])
    (h : (gradient_norm_stop_strategy.should_continue_search (matrix_length Real.sqrt)
        { _verbose := v, _min_norm := t, _max_iter := m, _cur_iter := k,
          _current_gradient_norm := c } x f d).result = false) :
    (gradient_max_abs_val_stop_strategy.should_continue_search matrix_abs matrix_max
        { _verbose := v', _min_gradient_abs_val := t, _max_iter := m, _cur_iter := k,
          _current_gradient_max_abs_val := c' } x f d).result = false ∧
      matrix_max (matrix_abs d) ≤ matrix_length Real.sqrt d ∧
      (([3, 4] : List ℝ) ≠ [] ∧
        (gradient_max_abs_val_stop_strategy.should_continue_search matrix_abs matrix_max
          (gradient_max_abs_val_stop_strategy.init (4.5 : ℝ)) x f [3, 4]).result = false ∧
        (gradient_norm_stop_strategy.should_continue_search (matrix_length Real.sqrt)
          (gradient_norm_stop_strategy.init (4.5 : ℝ)) x f [3, 4]).result = true) := by
  have hle := matrix_max_abs_le_matrix_length d hd
  refine ⟨?_, hle, by simp, ?_, ?_⟩
  · rw [gradient_norm_result_eq_false_iff] at h
    rw [gradient_max_abs_val_result_eq_false_iff]
    rcases h with h | h
    · exact Or.inl h
    · exact Or.inr (lt_of_le_of_lt hle h)
  · rw [gradient_max_abs_val_result_eq_false_iff]
    right
    have e : matrix_max (matrix_abs [(3 : ℝ), 4]) = 4 := by
      norm_num [matrix_max, matrix_abs, abs_of_nonneg]
    rw [e]
    simp only [gradient_max_abs_val_stop_strategy.init]
    norm_num
  · rw [← Bool.not_eq_false, gradient_norm_result_eq_false_iff, matrix_length_three_four]
    simp only [gradient_norm_stop_strategy.init]
    norm_num

/-- Witness of C18: tolerance `0.001`, no cap, no call made yet, and the
derivative `[0.0003, 0.0004]` of norm `0.0005`, on which
`gradient_norm_stop_strategy` returns `false`. -/
theorem C18_gradient_norm_stop_implies_max_abs_stop_witness :
    ([0.0003, 0.0004] : List ℝ) ≠ [] ∧
      (gradient_norm_stop_strategy.should_continue_search (matrix_length Real.sqrt)
        { _verbose := false, _min_norm := (0.001 : ℝ), _max_iter := 0, _cur_iter := 0,
          _current_gradient_norm := none } [1] 7 [0.0003, 0.0004]).result = false ∧
      (gradient_max_abs_val_stop_strategy.should_continue_search matrix_abs matrix_max
        { _verbose := false, _min_gradient_abs_val := (0.001 : ℝ), _max_iter := 0,
          _cur_iter := 0, _current_gradient_max_abs_val := none }
        [1] 7 [0.0003, 0.0004]).result = false := by
  have h1 : matrix_length Real.sqrt [0.0003, 0.0004] = 0.0005 := by
    have h : ((0.0003 : ℝ) * 0.0003 + 0.0004 * 0.0004) = 0.0005 * 0.0005 := by norm_num
    simp only [matrix_length, List.map_cons, List.map_nil, List.sum_cons, List.sum_nil,
      add_zero]
    rw [h, Real.sqrt_mul_self (by norm_num)]
  have hfalse : (gradient_norm_stop_strategy.should_continue_search (matrix_length Real.sqrt)
      { _verbose := false, _min_norm := (0.001 : ℝ), _max_iter := 0, _cur_iter := 0,
        _current_gradient_norm := none } [1] 7 [0.0003, 0.0004]).result = false := by
    rw [gradient_norm_result_eq_false_iff, h1]
    right
    norm_num
  exact ⟨by simp, hfalse,
    (C18_gradient_norm_stop_implies_max_abs_stop false false 0.001 0 0 none none [1] 7
      [0.0003, 0.0004] (by simp) hfalse).1⟩

/-- C19: for each of the three strategies the flag `_verbose` has no influence
on the decision: for an object `s`, the same object with `_verbose` set to any
value `b`, and the same arguments, `should_continue_search` returns the same
boolean, and the object after the call on the changed object is the object
after the call on `s` with `_verbose` set to `b`, so all other data members
(iteration count, stored metric, recorded objective, `_been_used`) agree. -/
theorem C19_verbose_does_not_influence_decision {T : Type} (sub : α → α → α)
    (length : T → α) (abs : T → T)
    (max : T → α) (b : Bool) (x : T) (f : α) (d : T) :
    (∀ s : objective_delta_stop_strategy α,
      (objective_delta_stop_strategy.should_continue_search sub { s with _verbose := b }
          x f d).result =
        (objective_delta_stop_strategy.should_continue_search sub s x f d).result ∧
      (objective_delta_stop_strategy.should_continue_search sub { s with _verbose := b }
          x f d).self =
        { (objective_delta_stop_strategy.should_continue_search sub s x f d).self with
          _verbose := b }) ∧
    (∀ s : gradient_norm_stop_strategy α,
      (gradient_norm_stop_strategy.should_continue_search length { s with _verbose := b }
          x f d).result =
        (gradient_norm_stop_strategy.should_continue_search length s x f d).result ∧
      (gradient_norm_stop_strategy.should_continue_search length { s with _verbose := b }
          x f d).self =
        { (gradient_norm_stop_strategy.should_continue_search length s x f d).self with
          _verbose := b }) ∧
    (∀ s : gradient_max_abs_val_stop_strategy α,
      (gradient_max_abs_val_stop_strategy.should_continue_search abs max
          { s with _verbose := b } x f d).result =
        (gradient_max_abs_val_stop_strategy.should_continue_search abs max s x f d).result ∧
      (gradient_max_abs_val_stop_strategy.should_continue_search abs max
          { s with _verbose := b } x f d).self =
        { (gradient_max_abs_val_stop_strategy.should_continue_search abs max s x f d).self
          with _verbose := b }) := by
  refine ⟨?_, ?_, ?_⟩
  · intro s
    unfold objective_delta_stop_strategy.should_continue_search
    simp only []
    constructor <;> split_ifs <;> rfl
  · intro s
    unfold gradient_norm_stop_strategy.should_continue_search
    simp only []
    constructor <;> split_ifs <;> rfl
  · intro s
    unfold gradient_max_abs_val_stop_strategy.should_continue_search
    simp only []
    constructor <;> split_ifs <;> rfl

end properties

end dlib
